import Mathlib

/-!
Verification development for the movement/collision engine and procedural
level-assembly logic of a tile-based 2D platformer (files `src/physics.rs`,
`src/state/common.rs`, `src/state/game_map.rs`).

Modelling conventions:
- Rust `f32` values are modelled as exact rationals (`ℚ`); `f32::floor` is
  `Rat.floor`.  `i32`/`u32` are modelled as `ℤ`/`ℕ` (no arithmetic in the
  modelled paths comes near the 32-bit range).
- `Vec<T>` is `List T`.  Rust indexing panics out of bounds; we model reads
  with `List.getD` whose default is never reached on the in-range paths the
  claims exercise, and writes with `List.set` (a no-op out of bounds).
- An allocate-then-fill loop (`vec![d; n]` followed by a loop writing every
  target cell exactly once) is rendered as the comprehension `mkGrid`, which
  gives each linear index `i + w * j` the value the loop writes there and the
  allocation default elsewhere.
- The trait object `&dyn MapLike` is a structure of the two methods the
  physics code actually dispatches on (`get_at`, `overlaps_solid`); the
  trait's default methods (`is_solid_at_tile`, `is_platform_at`, …) are
  functions over that structure, exactly as the trait defines them over
  `get_at`.
- Randomness (`rand::Rng`): every random draw takes the next value of an
  oracle stream `List ℕ`, reduced modulo the requested range size.
  Quantifying over the stream quantifies over all possible draw sequences.
- File-system directory enumeration is modelled over an abstract listing of
  (name, is-file) entries; only the pure filter/sort logic is embedded.
-/

/-- BaseTile from `game_map.rs`. -/
inductive BaseTile where
  | NotPartOfRoom
  | Empty
  | Stone
  | Wood
deriving DecidableEq, BEq

/-- OverlayTile from `game_map.rs`. -/
inductive OverlayTile where
  | None
  | Ladder
  | Platform
  | LadderPlatform
deriving DecidableEq, BEq

/-- DoorDir from `game_map.rs`. -/
inductive DoorDir where
  | Left
  | Right
  | Up
  | Down
deriving DecidableEq, BEq

/-- RoomDoor from `game_map.rs` (coordinates relative to the owning room). -/
structure RoomDoor where
  x : ℕ
  y : ℕ
  dir : DoorDir
deriving DecidableEq

/-- Dir from `state/common.rs` (horizontal facing used by `check_and_snap_hang`). -/
inductive Dir where
  | Left
  | Right
deriving DecidableEq

/-- Pos from `state/common.rs`. -/
structure Pos where
  x : ℚ
  y : ℚ
deriving DecidableEq

/-- BoundingBox from `state/common.rs`: position, size and velocity in tile units. -/
structure BoundingBox where
  x : ℚ
  y : ℚ
  w : ℚ
  h : ℚ
  vx : ℚ
  vy : ℚ
deriving DecidableEq

/-- BoundingBox::overlaps from `state/common.rs`. -/
def BoundingBox.overlaps (self other : BoundingBox) : Bool :=
  !(decide (self.x + self.w ≤ other.x) || decide (other.x + other.w ≤ self.x)
    || decide (self.y + self.h ≤ other.y) || decide (other.y + other.h ≤ self.y))

/-- ObjectTemplateType from `game_map.rs` (enemy kind tags of spawn templates). -/
inductive ObjectTemplateType where
  | Bat
  | Slime
  | Worm
deriving DecidableEq

/-- ObjectTemplate from `game_map.rs` (a spawn-point template). -/
structure ObjectTemplate where
  x : ℚ
  y : ℚ
  object_type : ObjectTemplateType
deriving DecidableEq

/-- Room from `game_map.rs`: dense base/overlay arrays of size w×h (row-major,
index `x + w * y`), world anchor, door list and spawn templates.  The field
order mirrors the Rust struct. -/
structure Room where
  base : List BaseTile
  overlay : List OverlayTile
  x : ℤ
  y : ℤ
  h : ℕ
  w : ℕ
  doors : List RoomDoor
  object_templates : List ObjectTemplate
deriving DecidableEq

/-- An inhabitant used as the `getD` default where Rust would panic
(indexing an empty candidate pool); never reached under the hypotheses of the
theorems below. -/
def Room.emptyRoom : Room :=
  { base := [], overlay := [], x := 0, y := 0, h := 0, w := 0,
    doors := [], object_templates := [] }

/-- The `&dyn MapLike` trait object: the two methods the physics code
dispatches on.  `get_at` must answer any world tile coordinate (the sentinel
for unclaimed space is part of each implementation); `overlaps_solid` is the
rectangle-against-solids query. -/
structure MapLike where
  get_at : ℤ → ℤ → BaseTile × OverlayTile
  overlaps_solid : ℚ → ℚ → ℚ → ℚ → Bool

/-- Trait-default `MapLike::is_solid_at_tile`, expressed over any `get_at`
function: NotPartOfRoom, Stone and Wood are solid, Empty is not. -/
def is_solid_at_tile_f (get_at : ℤ → ℤ → BaseTile × OverlayTile) (tx ty : ℤ) : Bool :=
  match (get_at tx ty).1 with
  | BaseTile.NotPartOfRoom => true
  | BaseTile.Empty => false
  | BaseTile.Stone => true
  | BaseTile.Wood => true

/-- Trait-default `MapLike::_is_solid_at_f_tile`: floor both coordinates and
test solidity. -/
def is_solid_at_f_tile_f (get_at : ℤ → ℤ → BaseTile × OverlayTile) (tx ty : ℚ) : Bool :=
  is_solid_at_tile_f get_at tx.floor ty.floor

/-- Trait-default `MapLike::_overlaps_solid_tile`: any of the rectangle's four
corners (floored to tile indices) lands on a solid tile. -/
def overlaps_solid_tile_f (get_at : ℤ → ℤ → BaseTile × OverlayTile) (x y w h : ℚ) : Bool :=
  is_solid_at_f_tile_f get_at x y
    || is_solid_at_f_tile_f get_at (x + w) y
    || is_solid_at_f_tile_f get_at (x + w) (y + h)
    || is_solid_at_f_tile_f get_at x (y + h)

/-- MapLike::is_solid_at_tile on a trait object. -/
def MapLike.is_solid_at_tile (m : MapLike) (tx ty : ℤ) : Bool :=
  is_solid_at_tile_f m.get_at tx ty

/-- MapLike::is_platform_at: overlay is Platform or LadderPlatform. -/
def MapLike.is_platform_at (m : MapLike) (tx ty : ℤ) : Bool :=
  match (m.get_at tx ty).2 with
  | OverlayTile.Platform => true
  | OverlayTile.LadderPlatform => true
  | _ => false

/-- MapLike.is_ladder_at: overlay is Ladder or LadderPlatform. -/
def MapLike.is_ladder_at (m : MapLike) (tx ty : ℤ) : Bool :=
  match (m.get_at tx ty).2 with
  | OverlayTile.Ladder => true
  | OverlayTile.LadderPlatform => true
  | _ => false

/-! Room operations from `game_map.rs`. -/

/-- Room::rel_to_abs. -/
def Room.rel_to_abs (r : Room) (xy : ℕ × ℕ) : ℤ × ℤ :=
  (r.x + xy.1, r.y + xy.2)

/-- Room::abs_to_rel: world coordinate to in-bounds local coordinate. -/
def Room.abs_to_rel (r : Room) (xy : ℤ × ℤ) : Option (ℕ × ℕ) :=
  let rel_x := xy.1 - r.x
  let rel_y := xy.2 - r.y
  if rel_x < 0 ∨ rel_y < 0 then none
  else if rel_x ≥ (r.w : ℤ) ∨ rel_y ≥ (r.h : ℤ) then none
  else some (rel_x.toNat, rel_y.toNat)

/-- Room::get_absolute (reads at local coordinates, row-major index `x + w*y`). -/
def Room.get_absolute (r : Room) (x y : ℕ) : BaseTile × OverlayTile :=
  (r.base.getD (x + r.w * y) BaseTile.NotPartOfRoom,
   r.overlay.getD (x + r.w * y) OverlayTile.None)

/-- Room::set_base_absolute. -/
def Room.set_base_absolute (r : Room) (x y : ℕ) (tile : BaseTile) : Room :=
  { r with base := r.base.set (x + r.w * y) tile }

/-- Room::set_overlay_absolute. -/
def Room.set_overlay_absolute (r : Room) (x y : ℕ) (tile : OverlayTile) : Room :=
  { r with overlay := r.overlay.set (x + r.w * y) tile }

/-- Room::get_relative: world coordinate read, none outside the footprint. -/
def Room.get_relative (r : Room) (x y : ℤ) : Option (BaseTile × OverlayTile) :=
  match r.abs_to_rel (x, y) with
  | some rel => some (r.get_absolute rel.1 rel.2)
  | none => none

/-- Room's MapLike::get_at impl: out-of-footprint reads are the solid sentinel
(NotPartOfRoom, None). -/
def Room.get_at (r : Room) (tx ty : ℤ) : BaseTile × OverlayTile :=
  (r.get_relative tx ty).getD (BaseTile.NotPartOfRoom, OverlayTile.None)

/-- Room::set_pos: moves the anchor and shifts spawn templates along. -/
def Room.set_pos (r : Room) (px py : ℤ) : Room :=
  let diff_x := r.x - px
  let diff_y := r.y - py
  { r with
    x := px, y := py,
    object_templates := r.object_templates.map (fun t =>
      { t with x := t.x - (diff_x : ℚ), y := t.y - (diff_y : ℚ) }) }

/-- Room::new_empty. -/
def Room.new_empty (x y : ℤ) (w h : ℕ) (base : BaseTile) (overlay : OverlayTile) : Room :=
  { x := x, y := y, h := h, w := w,
    base := List.replicate (h * w) base,
    overlay := List.replicate (h * w) overlay,
    doors := [], object_templates := [] }

/-- Room's MapLike::overlaps_solid impl is the pure corner test; the Room's
trait object packages it with `Room.get_at`. -/
def Room.toMapLike (r : Room) : MapLike :=
  { get_at := r.get_at,
    overlaps_solid := overlaps_solid_tile_f r.get_at }

/-! Kinematic integrator from `physics.rs`. -/

/-- GRAVITY constant (0.0070). -/
def GRAVITY : ℚ := 70 / 10000

/-- TERMINAL_VELOCITY constant (0.90). -/
def TERMINAL_VELOCITY : ℚ := 90 / 100

/-- EPS constant (0.0001). -/
def EPS : ℚ := 1 / 10000

/-- Axis selector of `sweep_axis`. -/
inductive Axis where
  | X
  | Y
deriving DecidableEq

/-- f32::signum for the nonzero deltas `sweep_axis` applies it to. -/
def fsignum (q : ℚ) : ℚ :=
  if q < 0 then -1 else 1

/-- Result record of `integrate_kinematic`. -/
structure KinematicResult where
  new_bb : BoundingBox
  on_bottom : Bool
  on_top : Bool
  on_left : Bool
  on_right : Bool
deriving DecidableEq

/-- KinematicResult::on_something. -/
def KinematicResult.on_something (k : KinematicResult) : Bool :=
  k.on_bottom || k.on_top || k.on_left || k.on_right

/-- The 16-iteration bisection loop of `sweep_axis`, on the pair (lo, hi):
lo is the last known safe distance, hi the last known blocked one. -/
def bisectLoop (ov : ℚ → Bool) (start dir : ℚ) : ℕ → ℚ → ℚ → ℚ × ℚ
  | 0, lo, hi => (lo, hi)
  | Nat.succ n, lo, hi =>
    let mid := (lo + hi) * (1 / 2)
    let candidate := start + dir * mid
    if ov candidate then bisectLoop ov start dir n lo mid
    else bisectLoop ov start dir n mid hi

/-- The overlap probe `sweep_axis` uses on a candidate coordinate of the
swept axis (the other axis stays fixed). -/
def overlapsAt (world : MapLike) (x y w h : ℚ) (axis : Axis) (t : ℚ) : Bool :=
  match axis with
  | Axis.X => world.overlaps_solid t y w h
  | Axis.Y => world.overlaps_solid x t w h

/-- The coordinate of the swept axis (the `start` of `sweep_axis`, also what
a zero-delta sweep returns). -/
def axisStart (x y : ℚ) (axis : Axis) : ℚ :=
  match axis with
  | Axis.X => x
  | Axis.Y => y

/-- sweep_axis from `physics.rs`: returns the reached coordinate on the swept
axis and whether the motion was blocked. -/
def sweep_axis (world : MapLike) (x y w h delta : ℚ) (axis : Axis) : ℚ × Bool :=
  if delta = 0 then (axisStart x y axis, false)
  else
    let start := axisStart x y axis
    let target := start + delta
    if !overlapsAt world x y w h axis target then (target, false)
    else
      let dir := fsignum delta
      let max_dist := |delta|
      if overlapsAt world x y w h axis start then (start, true)
      else
        let lohi := bisectLoop (overlapsAt world x y w h axis) start dir 16 0 max_dist
        let final_dist := max (lohi.1 - EPS) 0
        (start + dir * final_dist, true)

/-- integrate_kinematic from `physics.rs`: horizontal sweep, gravity, vertical
sweep, blocked flags, vertical velocity zeroed on a vertical hit. -/
def integrate_kinematic (world : MapLike) (bb : BoundingBox) (gravity : Bool) :
    KinematicResult :=
  let sx := sweep_axis world bb.x bb.y bb.w bb.h bb.vx Axis.X
  let out_x := sx.1
  let hit_x := sx.2
  let on_right := hit_x && decide (bb.vx > 0)
  let on_left := hit_x && decide (bb.vx < 0)
  let vy0 := if gravity then min (bb.vy + GRAVITY) TERMINAL_VELOCITY else bb.vy
  let sy := sweep_axis world out_x bb.y bb.w bb.h vy0 Axis.Y
  let out_y := sy.1
  let hit_y := sy.2
  let on_bottom := hit_y && decide (vy0 > 0)
  let on_top := hit_y && decide (vy0 < 0)
  let vy := if hit_y then 0 else vy0
  { new_bb :=
      { x := out_x, y := out_y, w := bb.w, h := bb.h, vx := bb.vx, vy := vy },
    on_bottom := on_bottom, on_top := on_top,
    on_left := on_left, on_right := on_right }

/-- check_and_snap_platforms from `physics.rs`.  The Rust function mutates the
candidate rectangle in place and returns a Bool; we return the pair (flag,
rectangle after the call). -/
def check_and_snap_platforms (old_bb new_bb : BoundingBox) (map : MapLike) :
    Bool × BoundingBox :=
  if (new_bb.y + new_bb.h).floor > (old_bb.y + old_bb.h).floor
      ∧ (map.is_platform_at new_bb.x.floor (new_bb.y + new_bb.h).floor
         || map.is_platform_at (new_bb.x + new_bb.w).floor (new_bb.y + new_bb.h).floor) then
    let new_y := ((old_bb.y + old_bb.h).floor : ℚ) - old_bb.h - EPS * 8 + 1
    (true, { new_bb with vy := 0, y := new_y })
  else
    (false, new_bb)

/-- The leading-edge x coordinate (`front_x`) of `check_and_snap_hang`. -/
def hangFrontX (new_bb : BoundingBox) (dir : Dir) : ℚ :=
  match dir with
  | Dir.Right => new_bb.x + new_bb.w
  | Dir.Left => new_bb.x

/-- The wall tile column (`wall_tx`) probed by `check_and_snap_hang`. -/
def hangWallTx (new_bb : BoundingBox) (dir : Dir) : ℤ :=
  match dir with
  | Dir.Right => (hangFrontX new_bb dir + EPS * 2).floor
  | Dir.Left => (hangFrontX new_bb dir + EPS * 2).floor - 1

/-- The horizontal gap (`dist_to_wall`) between the leading edge and the
probed wall column's near face in `check_and_snap_hang`. -/
def hangDistToWall (new_bb : BoundingBox) (dir : Dir) : ℚ :=
  match dir with
  | Dir.Right => |(hangWallTx new_bb dir : ℚ) - (new_bb.x + new_bb.w)|
  | Dir.Left => |new_bb.x - ((hangWallTx new_bb dir : ℚ) + 1)|

/-- The snapped x position (`snapped_x`) produced by `check_and_snap_hang`. -/
def hangSnappedX (new_bb : BoundingBox) (dir : Dir) : ℚ :=
  match dir with
  | Dir.Right => ((hangWallTx new_bb dir : ℚ) - EPS) - new_bb.w
  | Dir.Left => ((hangWallTx new_bb dir : ℚ) + 1) + EPS

/-- check_and_snap_hang from `physics.rs`: ledge-hang detection. -/
def check_and_snap_hang (old_bb new_bb : BoundingBox) (map : MapLike) (dir : Dir) :
    Option Pos :=
  if new_bb.y ≤ old_bb.y then none
  else
    let wall_tx : ℤ := hangWallTx new_bb dir
    let dist_to_wall := hangDistToWall new_bb dir
    if dist_to_wall > EPS * 3 then none
    else if old_bb.y.floor = new_bb.y.floor then none
    else
      let ledge_ty : ℤ := new_bb.y.floor
      let solid_here := map.is_solid_at_tile wall_tx ledge_ty
      let solid_above := map.is_solid_at_tile wall_tx (ledge_ty - 1)
      if !solid_here || solid_above then none
      else some { x := hangSnappedX new_bb dir, y := (ledge_ty : ℚ) }

/-! Grid construction and the border-scan machinery of `Room::resize_*`. -/

/-- A freshly allocated `h*w` buffer whose cell at row-major index `i + w * j`
holds `f i j`; renders the Rust allocate-then-fill loops, which write every
in-range cell exactly once. -/
def mkGrid {α : Type} (w h : ℕ) (f : ℕ → ℕ → α) : List α :=
  (List.range (h * w)).map (fun k => f (k % w) (k / w))

/-- A cell that counts as removable border in `resize_shrink`:
exactly the pair (NotPartOfRoom, None). -/
def cellBlank (c : BaseTile × OverlayTile) : Bool :=
  match c with
  | (BaseTile.NotPartOfRoom, OverlayTile.None) => true
  | (_, _) => false

/-- Whether a whole column of the room is removable border (the inner `yy`
loop of the column scan in `resize_shrink`). -/
def Room.colBlank (r : Room) (xx : ℕ) : Bool :=
  (List.range r.h).all (fun yy => cellBlank (r.get_absolute xx yy))

/-- Whether a whole row of the room is removable border (the inner `xx` loop
of the row scan in `resize_shrink`). -/
def Room.rowBlank (r : Room) (yy : ℕ) : Bool :=
  (List.range r.w).all (fun xx => cellBlank (r.get_absolute xx yy))

/-- Loop state of one border scan in `resize_shrink`: strips removed from the
two opposite sides, the two sticky still_doing flags, and whether the early
`break` has fired. -/
structure ScanState where
  removeA : ℕ
  removeB : ℕ
  doingA : Bool
  doingB : Bool
  stopped : Bool
deriving DecidableEq

/-- One iteration of a border scan of `resize_shrink`: predicate `p` reports
side-A's strip at index `i` fully blank, `q` side-B's; flags are sticky, the
loop breaks once both sides have stopped, and a side's counter advances only
while its flag still holds. -/
def scanStep (p q : ℕ → Bool) (st : ScanState) (i : ℕ) : ScanState :=
  if st.stopped then st
  else
    let dA := st.doingA && p i
    let dB := st.doingB && q i
    if !dA && !dB then { st with doingA := dA, doingB := dB, stopped := true }
    else
      { removeA := st.removeA + (if dA then 1 else 0),
        removeB := st.removeB + (if dB then 1 else 0),
        doingA := dA, doingB := dB, stopped := false }

/-- A full border scan over indices 0..n-1. -/
def scanRun (p q : ℕ → Bool) (n : ℕ) : ScanState :=
  (List.range n).foldl (scanStep p q) ⟨0, 0, true, true, false⟩

/-- The `cols_to_add_left` count of `Room::resize_to_fit`. -/
def padLeft (r : Room) (x : ℤ) : ℕ := (max (r.x - x) 0).toNat

/-- The `rows_to_add_top` count of `Room::resize_to_fit`. -/
def padTop (r : Room) (y : ℤ) : ℕ := (max (r.y - y) 0).toNat

/-- The `cols_to_add_right` count of `Room::resize_to_fit`. -/
def padRight (r : Room) (x : ℤ) : ℕ := (max (x - (r.x + r.w) + 1) 0).toNat

/-- The `rows_to_add_bottom` count of `Room::resize_to_fit`. -/
def padBottom (r : Room) (y : ℤ) : ℕ := (max (y - (r.y + r.h) + 1) 0).toNat

/-- Room::resize_to_fit from `game_map.rs`: grow the room so the (world)
point (x, y) falls inside, padding with (NotPartOfRoom, None) and shifting
door coordinates by the amount added on the left/top. -/
def Room.resize_to_fit (r : Room) (x y : ℤ) : Room :=
  let cols_to_add_left : ℕ := padLeft r x
  let rows_to_add_top : ℕ := padTop r y
  let cols_to_add_right : ℕ := padRight r x
  let rows_to_add_bottom : ℕ := padBottom r y
  let new_h : ℕ := r.h + rows_to_add_bottom + rows_to_add_top
  let new_w : ℕ := r.w + cols_to_add_left + cols_to_add_right
  let new_base := mkGrid new_w new_h (fun i j =>
    if cols_to_add_left ≤ i ∧ i < cols_to_add_left + r.w
        ∧ rows_to_add_top ≤ j ∧ j < rows_to_add_top + r.h then
      r.base.getD ((i - cols_to_add_left) + r.w * (j - rows_to_add_top)) BaseTile.NotPartOfRoom
    else BaseTile.NotPartOfRoom)
  let new_overlay := mkGrid new_w new_h (fun i j =>
    if cols_to_add_left ≤ i ∧ i < cols_to_add_left + r.w
        ∧ rows_to_add_top ≤ j ∧ j < rows_to_add_top + r.h then
      r.overlay.getD ((i - cols_to_add_left) + r.w * (j - rows_to_add_top)) OverlayTile.None
    else OverlayTile.None)
  { r with
    x := min r.x x, y := min r.y y, h := new_h, w := new_w,
    base := new_base, overlay := new_overlay,
    doors := r.doors.map (fun d =>
      { d with x := d.x + cols_to_add_left, y := d.y + rows_to_add_top }) }

/-- Room::resize_shrink from `game_map.rs`: trim fully-blank border strips on
all four sides, move the anchor, and clamp/shift door coordinates into the
new bounds. -/
def Room.resize_shrink (r : Room) : Room :=
  let colScan := scanRun (fun xx => r.colBlank xx) (fun xx => r.colBlank (r.w - xx - 1)) r.w
  let cols_to_remove_left := colScan.removeA
  let cols_to_remove_right := colScan.removeB
  let rowScan := scanRun (fun yy => r.rowBlank yy) (fun yy => r.rowBlank (r.h - yy - 1)) r.h
  let rows_to_remove_top := rowScan.removeA
  let rows_to_remove_bottom := rowScan.removeB
  let new_h := r.h - rows_to_remove_bottom - rows_to_remove_top
  let new_w := r.w - cols_to_remove_left - cols_to_remove_right
  let new_base := mkGrid new_w new_h (fun xx yy =>
    r.base.getD ((xx + cols_to_remove_left) + r.w * (yy + rows_to_remove_top)) BaseTile.Empty)
  let new_overlay := mkGrid new_w new_h (fun xx yy =>
    r.overlay.getD ((xx + cols_to_remove_left) + r.w * (yy + rows_to_remove_top)) OverlayTile.None)
  { r with
    x := r.x + cols_to_remove_left, y := r.y + rows_to_remove_top,
    h := new_h, w := new_w,
    base := new_base, overlay := new_overlay,
    doors := r.doors.map (fun d =>
      { d with
        x := (min (max ((d.x : ℤ) - cols_to_remove_left) 0) ((new_w : ℤ) - 1)).toNat,
        y := (min (max ((d.y : ℤ) - rows_to_remove_top) 0) ((new_h : ℤ) - 1)).toNat }) }

/-- Room::get_ladders: world positions of every Ladder/LadderPlatform cell. -/
def Room.get_ladders (r : Room) : List Pos :=
  (List.range r.w).foldl (fun acc x =>
    (List.range r.h).foldl (fun acc2 y =>
      match (r.get_absolute x y).2 with
      | OverlayTile.Ladder => acc2 ++ [⟨(x : ℚ) + (r.x : ℚ), (y : ℚ) + (r.y : ℚ)⟩]
      | OverlayTile.LadderPlatform => acc2 ++ [⟨(x : ℚ) + (r.x : ℚ), (y : ℚ) + (r.y : ℚ)⟩]
      | _ => acc2) acc) []

/-- Room::get_platforms: world positions of every Platform/LadderPlatform cell. -/
def Room.get_platforms (r : Room) : List Pos :=
  (List.range r.w).foldl (fun acc x =>
    (List.range r.h).foldl (fun acc2 y =>
      match (r.get_absolute x y).2 with
      | OverlayTile.Platform => acc2 ++ [⟨(x : ℚ) + (r.x : ℚ), (y : ℚ) + (r.y : ℚ)⟩]
      | OverlayTile.LadderPlatform => acc2 ++ [⟨(x : ℚ) + (r.x : ℚ), (y : ℚ) + (r.y : ℚ)⟩]
      | _ => acc2) acc) []

/-! Dungeon (GameMap) and the assembler from `game_map.rs`. -/

/-- MapDoor from `game_map.rs` (the render-only animation handler is omitted:
no claim observes it and it feeds no game logic here).  `open_flag` is the
Rust field `open`. -/
structure MapDoor where
  x : ℤ
  y : ℤ
  goes_up_down : Bool
  open_flag : Bool
  closed_frames : ℤ
deriving DecidableEq

/-- MapDoor::is_open. -/
def MapDoor.is_open (d : MapDoor) : Bool :=
  d.open_flag && decide (d.closed_frames = 0)

/-- MapDoor::new (doors start closed). -/
def MapDoor.new (x y : ℤ) (goes_up_down : Bool) : MapDoor :=
  { x := x, y := y, goes_up_down := goes_up_down, open_flag := false, closed_frames := 0 }

/-- MapDoor::bb: the door's hit-box (inset 3/16 on the crossing axis). -/
def MapDoor.bb (d : MapDoor) : BoundingBox :=
  match d.goes_up_down with
  | true =>
    { x := (d.x : ℚ), y := (d.y : ℚ) + 3 / 16, w := 1, h := 1 - 6 / 16, vx := 0, vy := 0 }
  | false =>
    { x := (d.x : ℚ) + 3 / 16, y := (d.y : ℚ), w := 1 - 6 / 16, h := 1, vx := 0, vy := 0 }

/-- GameMap from `game_map.rs`: placed rooms, inter-room doors, and the
flattened lookup buffers built once after assembly. -/
structure GameMap where
  rooms : List Room
  doors : List MapDoor
  ladder_pos : List Pos
  platform_pos : List Pos
  x : ℤ
  y : ℤ
  w : ℕ
  h : ℕ
  base : List BaseTile
  overlay : List OverlayTile

/-- GameMap::get_bounds' fold over a room list, starting from i32::MAX/MIN
exactly as the source does. -/
def boundsOfRooms (rooms : List Room) : ℤ × ℤ × ℤ × ℤ :=
  let st := rooms.foldl
    (fun acc room =>
      (min room.x acc.1, min room.y acc.2.1,
       max (room.x + (room.w : ℤ)) acc.2.2.1, max (room.y + (room.h : ℤ)) acc.2.2.2))
    ((2147483647 : ℤ), (2147483647 : ℤ), (-2147483648 : ℤ), (-2147483648 : ℤ))
  (st.1, st.2.1, st.2.2.1 - st.1, st.2.2.2 - st.2.1)

/-- GameMap::get_bounds. -/
def GameMap.get_bounds (gm : GameMap) : ℤ × ℤ × ℤ × ℤ :=
  boundsOfRooms gm.rooms

/-- GameMap::get_at_from_room: first room in list order that claims the cell
with a tile other than NotPartOfRoom; unclaimed cells read as solid Stone. -/
def get_at_from_rooms (rooms : List Room) (tx ty : ℤ) : BaseTile × OverlayTile :=
  match rooms with
  | [] => (BaseTile.Stone, OverlayTile.None)
  | room :: rest =>
    match room.get_relative tx ty with
    | Option.none => get_at_from_rooms rest tx ty
    | some (BaseTile.NotPartOfRoom, _) => get_at_from_rooms rest tx ty
    | some res => res

/-- One draw from the random oracle: the next stream value reduced modulo the
range size (an exhausted stream draws 0; Rust's RNG never exhausts, and every
finite draw sequence is realizable by a suitable stream). -/
def rngNext (rng : List ℕ) (n : ℕ) : ℕ × List ℕ :=
  match rng with
  | [] => (0, [])
  | v :: rest => (v % n, rest)

/-- The tile-overlap acceptance check of one assembly attempt (the nested
x/y/room loops of GameMap::new_random; the `continue 'room_loop` on a
mismatch makes the attempt succeed exactly when every comparison passes).
Two rooms may overlap freely on NotPartOfRoom cells; any other differing
pair of base tiles at a shared world coordinate rejects the attempt. -/
def rooms_tiles_compatible (random_new_room : Room) (rooms : List Room) : Bool :=
  (List.range random_new_room.w).all (fun x =>
    (List.range random_new_room.h).all (fun y =>
      rooms.all (fun room =>
        let new_room_tile := (random_new_room.get_absolute x y).1
        let existing_tile := (room.get_at (random_new_room.x + x) (random_new_room.y + y)).1
        match new_room_tile, existing_tile with
        | BaseTile.NotPartOfRoom, _ => true
        | _, BaseTile.NotPartOfRoom => true
        | t1, t2 => t1 == t2)))

/-- Assembly loop state: the rooms and doors grown so far, the placed-room
counter, and the remaining random oracle. -/
structure AsmState where
  rooms : List Room
  doors : List MapDoor
  room_count : ℕ
  rng : List ℕ

/-- One iteration of the assembly loop of GameMap::new_random: pick a placed
room and one of its doors, pick a candidate template and a door of opposite
direction on it, translate the candidate so the doors coincide, reject
degenerate duplicate anchors and tile conflicts, and otherwise carve both
door cells to Empty, append the room and record the inter-room door.  Every
`continue` path leaves rooms/doors/count unchanged (only the oracle
advances). -/
def attempt_add_room (candidates : List Room) (st : AsmState) : AsmState :=
  let p1 := rngNext st.rng st.rooms.length
  let random_existing_room_index := p1.1
  let random_existing_room := st.rooms.getD random_existing_room_index Room.emptyRoom
  if random_existing_room.doors.isEmpty then { st with rng := p1.2 }
  else
    let p2 := rngNext p1.2 random_existing_room.doors.length
    let random_door := random_existing_room.doors.getD p2.1 ⟨0, 0, DoorDir.Left⟩
    let random_door_x := random_door.x
    let random_door_y := random_door.y
    let door_world_pos := random_existing_room.rel_to_abs (random_door.x, random_door.y)
    let p3 := rngNext p2.2 candidates.length
    let random_new_room0 := candidates.getD p3.1 Room.emptyRoom
    let door_match_candidates := random_new_room0.doors.filter (fun door =>
      match door.dir with
      | DoorDir.Down => random_door.dir == DoorDir.Up
      | DoorDir.Up => random_door.dir == DoorDir.Down
      | DoorDir.Left => random_door.dir == DoorDir.Right
      | DoorDir.Right => random_door.dir == DoorDir.Left)
    if door_match_candidates.isEmpty then { st with rng := p3.2 }
    else
      let p4 := rngNext p3.2 door_match_candidates.length
      let random_door_where_trying_to_connect :=
        door_match_candidates.getD p4.1 ⟨0, 0, DoorDir.Left⟩
      let new_door_world_pos := random_new_room0.rel_to_abs
        (random_door_where_trying_to_connect.x, random_door_where_trying_to_connect.y)
      let door_goes_up_down := match random_door_where_trying_to_connect.dir with
        | DoorDir.Down => true
        | DoorDir.Up => true
        | DoorDir.Left => false
        | DoorDir.Right => false
      let random_new_room := random_new_room0.set_pos
        (random_new_room0.x + (-new_door_world_pos.1 + door_world_pos.1))
        (random_new_room0.y + (-new_door_world_pos.2 + door_world_pos.2))
      if random_new_room.x = random_existing_room.x
          ∧ random_new_room.y = random_existing_room.y then { st with rng := p4.2 }
      else if !rooms_tiles_compatible random_new_room st.rooms then { st with rng := p4.2 }
      else
        let random_new_room2 := random_new_room.set_base_absolute
          random_door_where_trying_to_connect.x random_door_where_trying_to_connect.y
          BaseTile.Empty
        let rooms2 := st.rooms.set random_existing_room_index
          (random_existing_room.set_base_absolute random_door_x random_door_y BaseTile.Empty)
        { rooms := rooms2 ++ [random_new_room2],
          doors := st.doors ++ [MapDoor.new door_world_pos.1 door_world_pos.2 door_goes_up_down],
          room_count := st.room_count + 1,
          rng := p4.2 }

/-- The `for i in 0..1000` attempt loop, with the source's `break` as soon as
the placed-room counter reaches 10 (the counter is checked right after a
successful placement; failed attempts leave it unchanged, so checking after
every attempt is the same control flow). -/
def assemble_loop (candidates : List Room) : ℕ → AsmState → AsmState
  | 0, st => st
  | Nat.succ n, st =>
    let st2 := attempt_add_room candidates st
    if st2.room_count ≥ 10 then st2 else assemble_loop candidates n st2

/-- GameMap::new_random from `game_map.rs`, over an explicit candidate pool
(the in-memory result of the folder load) and a random oracle.  Picks a random
first room (the Rust `unwrap` on an empty pool panics; the model's `getD`
default is never reached under the nonempty-pool hypothesis), runs the
assembly loop, then collects ladder/platform positions and flattens all rooms
into one lookup buffer over the union bounding box, defaulting to Stone. -/
def GameMap.new_random (candidates : List Room) (rng0 : List ℕ) : GameMap :=
  let p0 := rngNext rng0 candidates.length
  let first_room := candidates.getD p0.1 Room.emptyRoom
  let stF := assemble_loop candidates 1000 ⟨[first_room], [], 1, p0.2⟩
  let ladder_pos := stF.rooms.foldl (fun acc room => acc ++ room.get_ladders) []
  let platform_pos := stF.rooms.foldl (fun acc room => acc ++ room.get_platforms) []
  let b := boundsOfRooms stF.rooms
  let bw : ℕ := b.2.2.1.toNat
  let bh : ℕ := b.2.2.2.toNat
  { rooms := stF.rooms,
    doors := stF.doors,
    ladder_pos := ladder_pos,
    platform_pos := platform_pos,
    x := b.1, y := b.2.1, w := bw, h := bh,
    base := mkGrid bw bh (fun xx yy =>
      (get_at_from_rooms stF.rooms (b.1 + (xx : ℤ)) (b.2.1 + (yy : ℤ))).1),
    overlay := mkGrid bw bh (fun xx yy =>
      (get_at_from_rooms stF.rooms (b.1 + (xx : ℤ)) (b.2.1 + (yy : ℤ))).2) }

/-- GameMap's MapLike::get_at impl: out-of-bounds reads are solid Stone,
in-bounds reads index the flattened buffer. -/
def GameMap.get_at (gm : GameMap) (tx ty : ℤ) : BaseTile × OverlayTile :=
  if tx < gm.x ∨ ty < gm.y ∨ tx ≥ gm.x + gm.w ∨ ty ≥ gm.y + gm.h then
    (BaseTile.Stone, OverlayTile.None)
  else
    let index := ((tx - gm.x) + (ty - gm.y) * gm.w).toNat
    (gm.base.getD index BaseTile.Stone, gm.overlay.getD index OverlayTile.None)

/-- GameMap's MapLike::overlaps_solid impl: the corner-tile test, plus the
hit-boxes of the closed inter-room doors. -/
def GameMap.overlaps_solid (gm : GameMap) (x y w h : ℚ) : Bool :=
  overlaps_solid_tile_f gm.get_at x y w h
    || gm.doors.any (fun door =>
        !door.is_open
          && door.bb.overlaps { x := x, y := y, w := w, h := h, vx := 0, vy := 0 })

/-- GameMap's trait object. -/
def GameMap.toMapLike (gm : GameMap) : MapLike :=
  { get_at := gm.get_at, overlaps_solid := gm.overlaps_solid }

/-! Room folder enumeration from `game_map.rs` (`Room::get_dir_entries`).
Only the pure filter/sort logic is embedded; `fs::read_dir` is modelled by an
abstract listing of directory entries. -/

/-- A directory entry as `get_dir_entries` observes it: a file name and
whether the path is a regular file. -/
structure DirEntry where
  name : String
  is_file : Bool
deriving DecidableEq

/-- Path::extension on a plain file name, as Rust computes it: the part after
the last dot, except that a leading-dot name with no further dot has no
extension. -/
def fileExtension (name : String) : Option String :=
  match name.splitOn "." with
  | [] => none
  | [_] => none
  | [ "", _ ] => none
  | parts => some (parts.getLast! )

/-- Room::get_dir_entries: keep the regular files whose extension is `json`
(any name), sorted by file name. -/
def get_dir_entries (listing : List DirEntry) : List DirEntry :=
  let entries := listing.filter (fun e => e.is_file && (fileExtension e.name == some "json"))
  entries.mergeSort (fun a b => a.name ≤ b.name)

/-- Modelled from the spec: the file-name pattern `room_<digits>.json` that
the claim says enumeration should be restricted to (the source uses this
pattern only in `next_available_file_name`). -/
def specRoomFilePattern (name : String) : Bool :=
  let mid := (name.drop 5).dropRight 5
  name.startsWith "room_" && name.endsWith ".json"
    && decide (0 < mid.length) && mid.all Char.isDigit

/-! Concrete fixtures used by the counterexamples and witnesses below. -/

/-- A one-row room (anchor (0,0), 8×1) with Wood at columns 1, 5 and 6:
column 1 is an isolated thin wall, columns 5-6 a wall further right, with the
free corridor between them. -/
def c1Room : Room :=
  { base := [BaseTile.Empty, BaseTile.Wood, BaseTile.Empty, BaseTile.Empty,
             BaseTile.Empty, BaseTile.Wood, BaseTile.Wood, BaseTile.Empty],
    overlay := List.replicate 8 OverlayTile.None,
    x := 0, y := 0, h := 1, w := 8, doors := [], object_templates := [] }

/-- A mover almost exactly 3 tiles wide (2^-15 short), heading right at
velocity 4 from x = 0. -/
def c1Bb : BoundingBox :=
  { x := 0, y := 1 / 4, w := 3 - 1 / 32768, h := 1 / 2, vx := 4, vy := 0 }

/-- A one-row room (anchor (0,0), 3×1) with a single Wood tile at column 0. -/
def c2Room : Room :=
  { base := [BaseTile.Wood, BaseTile.Empty, BaseTile.Empty],
    overlay := List.replicate 3 OverlayTile.None,
    x := 0, y := 0, h := 1, w := 3, doors := [], object_templates := [] }

/-- A 5×2 room (anchor (0,0)): the top row is open, the bottom row has a
single Wood tile at column 3 - a one-tile-tall lip. -/
def c5Room : Room :=
  { base := [BaseTile.Empty, BaseTile.Empty, BaseTile.Empty, BaseTile.Empty, BaseTile.Empty,
             BaseTile.Empty, BaseTile.Empty, BaseTile.Empty, BaseTile.Wood, BaseTile.Empty],
    overlay := List.replicate 10 OverlayTile.None,
    x := 0, y := 0, h := 2, w := 5, doors := [], object_templates := [] }

/-- The falling mover before the frame: top at y = 0.8, leading edge at
x = 2.95, i.e. 0.05 tiles short of the wall column at x = 3. -/
def c5Old : BoundingBox :=
  { x := 49 / 20, y := 4 / 5, w := 1 / 2, h := 1 / 2, vx := 0, vy := 0 }

/-- The falling mover after the frame: top at y = 1.05 (crossed into row 1). -/
def c5New : BoundingBox :=
  { x := 49 / 20, y := 21 / 20, w := 1 / 2, h := 1 / 2, vx := 0, vy := 1 / 4 }

/-- A 2×2 room (anchor (0,0)), all Empty, with a Platform overlay at (0, 1). -/
def c6Room : Room :=
  { base := List.replicate 4 BaseTile.Empty,
    overlay := [OverlayTile.None, OverlayTile.None, OverlayTile.Platform, OverlayTile.None],
    x := 0, y := 0, h := 2, w := 2, doors := [], object_templates := [] }

/-- The mover before the frame: bottom edge at y = 0.7 (above row 1). -/
def c6Old : BoundingBox :=
  { x := 1 / 4, y := 1 / 5, w := 1 / 2, h := 1 / 2, vx := 0, vy := 0 }

/-- The mover after the frame: bottom edge at y = 1.1 (at-or-below row 1). -/
def c6New : BoundingBox :=
  { x := 1 / 4, y := 3 / 5, w := 1 / 2, h := 1 / 2, vx := 0, vy := 1 / 4 }

/-- A 4×4 all-Empty room (anchor (0,0)): free space around the mover. -/
def c7Room : Room :=
  { base := List.replicate 16 BaseTile.Empty,
    overlay := List.replicate 16 OverlayTile.None,
    x := 0, y := 0, h := 4, w := 4, doors := [], object_templates := [] }

/-- A mover at rest in the middle of the free room. -/
def c7Bb : BoundingBox :=
  { x := 3 / 2, y := 3 / 2, w := 1 / 2, h := 1 / 2, vx := 0, vy := 0 }

/-- A 2×1 room whose leftmost column is fully blank ((NotPartOfRoom, None))
already before any grow: its shrink is not the identity. -/
def c4Room : Room :=
  { base := [BaseTile.NotPartOfRoom, BaseTile.Stone],
    overlay := [OverlayTile.None, OverlayTile.None],
    x := 0, y := 0, h := 1, w := 2, doors := [], object_templates := [] }

/-- A tight 1-by-1 Stone room: no border strip is blank, so the grow-shrink
round-trip returns it unchanged. -/
def c4TightRoom : Room :=
  { base := [BaseTile.Stone], overlay := [OverlayTile.None],
    x := 0, y := 0, h := 1, w := 1, doors := [], object_templates := [] }

/-- Room template for the assembly counterexample: a boxed 3×3 room (Wood
border, Empty center) at anchor (0,0) with a Right door at (2,1), a Right
door at (2,0) and a Left door at (0,1). -/
def t0Room : Room :=
  { base := [BaseTile.Wood, BaseTile.Wood, BaseTile.Wood,
             BaseTile.Wood, BaseTile.Empty, BaseTile.Wood,
             BaseTile.Wood, BaseTile.Wood, BaseTile.Wood],
    overlay := List.replicate 9 OverlayTile.None,
    x := 0, y := 0, h := 3, w := 3,
    doors := [⟨2, 1, DoorDir.Right⟩, ⟨2, 0, DoorDir.Right⟩, ⟨0, 1, DoorDir.Left⟩],
    object_templates := [] }

/-- Second template for the assembly counterexample: a 3×3 room whose middle
row is Wood and whose other rows are NotPartOfRoom, with a Left door at
(0,1). -/
def tcRoom : Room :=
  { base := [BaseTile.NotPartOfRoom, BaseTile.NotPartOfRoom, BaseTile.NotPartOfRoom,
             BaseTile.Wood, BaseTile.Wood, BaseTile.Wood,
             BaseTile.NotPartOfRoom, BaseTile.NotPartOfRoom, BaseTile.NotPartOfRoom],
    overlay := List.replicate 9 OverlayTile.None,
    x := 0, y := 0, h := 3, w := 3,
    doors := [⟨0, 1, DoorDir.Left⟩],
    object_templates := [] }

/-- Candidate pool for the assembly counterexample. -/
def c3Candidates : List Room := [t0Room, tcRoom]

/-- Random oracle for the assembly counterexample: first room t0Room, then
nine successful placements (the second one routes tcRoom through the (2,0)
door of the first room so a later carve conflicts with an already-placed
neighbour, the rest chain t0Room copies rightwards until ten rooms stop the
loop). -/
def c3Stream : List ℕ :=
  [0,
   0, 0, 0, 0,
   0, 1, 1, 0,
   1, 0, 0, 0,
   3, 0, 0, 0,
   4, 0, 0, 0,
   5, 0, 0, 0,
   6, 0, 0, 0,
   7, 0, 0, 0,
   8, 0, 0, 0]

/-- The zero-pairwise-tile-conflict property claim C3 asserts of the
assembled dungeon: any two placed rooms agree at every world tile where both
have a base tile other than NotPartOfRoom. -/
def pairwiseConflictFree (gm : GameMap) : Prop :=
  ∀ i j : ℕ, i < gm.rooms.length → j < gm.rooms.length → ∀ tx ty : ℤ,
    ((gm.rooms.getD i Room.emptyRoom).get_at tx ty).1 ≠ BaseTile.NotPartOfRoom →
    ((gm.rooms.getD j Room.emptyRoom).get_at tx ty).1 ≠ BaseTile.NotPartOfRoom →
    ((gm.rooms.getD i Room.emptyRoom).get_at tx ty).1
      = ((gm.rooms.getD j Room.emptyRoom).get_at tx ty).1

/-! Theorems. -/

/-- C9: for every world, bounding box and gravity flag, the box returned by
integrate_kinematic has the same width, height and horizontal velocity as the
input - only x, y and vy may change; in particular a horizontal block does
not zero vx (only a vertical block zeroes vy). -/
theorem c9_integrate_preserves_w_h_vx (world : MapLike) (bb : BoundingBox) (gravity : Bool) :
    (integrate_kinematic world bb gravity).new_bb.w = bb.w
      ∧ (integrate_kinematic world bb gravity).new_bb.h = bb.h
      ∧ (integrate_kinematic world bb gravity).new_bb.vx = bb.vx :=
  ⟨rfl, rfl, rfl⟩

/-- C7 counterexample: with gravity enabled, a zero-velocity box in free
space is not returned unchanged (gravity moves it down and gives it vertical
velocity), refuting the claim read over every gravity flag. -/
theorem c7_counterexample :
    c7Bb.vx = 0 ∧ c7Bb.vy = 0
      ∧ (integrate_kinematic c7Room.toMapLike c7Bb true).new_bb ≠ c7Bb
      ∧ (integrate_kinematic c7Room.toMapLike c7Bb true).new_bb.y ≠ c7Bb.y := by
  with_unfolding_all decide

/-- C7 amended: with gravity disabled, integrate_kinematic on a zero-velocity
box returns the input rectangle unchanged and reports no blocked flags, for
every world. -/
theorem c7_zero_velocity_identity (world : MapLike) (bb : BoundingBox)
    (hvx : bb.vx = 0) (hvy : bb.vy = 0) :
    integrate_kinematic world bb false =
      { new_bb := bb, on_bottom := false, on_top := false,
        on_left := false, on_right := false } := by
  obtain ⟨x, y, w, h, vx, vy⟩ := bb
  simp only at hvx hvy
  subst hvx hvy
  simp [integrate_kinematic, sweep_axis, axisStart]

/-- C7 witness: the amended theorem applied at the concrete free-space
fixture. -/
theorem c7_witness :
    integrate_kinematic c7Room.toMapLike c7Bb false =
      { new_bb := c7Bb, on_bottom := false, on_top := false,
        on_left := false, on_right := false } :=
  c7_zero_velocity_identity c7Room.toMapLike c7Bb rfl rfl

/-- C2 counterexample: a rectangle overlapping a solid at its start is not
left in place by the axis sweep when the full-delta target is free - the
fast path teleports it to the target and reports unblocked, refuting the
claim. -/
theorem c2_counterexample :
    overlapsAt c2Room.toMapLike (1/5) (1/5) (1/2) (1/2) Axis.X (1/5) = true
      ∧ sweep_axis c2Room.toMapLike (1/5) (1/5) (1/2) (1/2) (3/2) Axis.X = (17/10, false) := by
  with_unfolding_all decide

/-- C2 amended: if the rectangle overlaps a solid at its starting position
AND the full-delta target also overlaps, the axis sweep reports blocked and
leaves the position on that axis unchanged (no de-penetration); when the
target is free the sweep instead accepts the full move unblocked. -/
theorem c2_sweep_start_overlap_blocked (world : MapLike) (x y w h delta : ℚ) (axis : Axis)
    (hdelta : delta ≠ 0)
    (hstart : overlapsAt world x y w h axis (axisStart x y axis) = true)
    (htarget : overlapsAt world x y w h axis (axisStart x y axis + delta) = true) :
    sweep_axis world x y w h delta axis = (axisStart x y axis, true) := by
  simp [sweep_axis, hdelta, hstart, htarget]

/-- C2 witness: the amended theorem at a concrete overlapping start whose
target also overlaps. -/
theorem c2_witness :
    sweep_axis c2Room.toMapLike (1/5) (1/5) (1/2) (1/2) (1/2) Axis.X = (1/5, true) :=
  c2_sweep_start_overlap_blocked c2Room.toMapLike (1/5) (1/5) (1/2) (1/2) (1/2) Axis.X
    (by norm_num) (by with_unfolding_all decide) (by with_unfolding_all decide)

/-- C1 counterexample: a rectangle that does not overlap any solid before
integration can overlap one afterwards: the epsilon back-off after the
bisection steps the accepted distance back into a free gap narrower than EPS
behind the contact surface, landing the left corner back inside the thin
wall at column 1. -/
theorem c1_counterexample :
    c1Room.toMapLike.overlaps_solid c1Bb.x c1Bb.y c1Bb.w c1Bb.h = false
      ∧ c1Room.toMapLike.overlaps_solid
          (integrate_kinematic c1Room.toMapLike c1Bb false).new_bb.x
          (integrate_kinematic c1Room.toMapLike c1Bb false).new_bb.y
          (integrate_kinematic c1Room.toMapLike c1Bb false).new_bb.w
          (integrate_kinematic c1Room.toMapLike c1Bb false).new_bb.h = true := by
  with_unfolding_all decide

/-- C1 amended: the bisection itself is safe - starting from a
non-overlapping lower bound, the accepted distance lo after any number of
iterations is still non-overlapping (the claim as stated fails only because
of the EPS back-off applied after the loop, as the counterexample shows). -/
theorem c1_bisection_lo_safe (ov : ℚ → Bool) (start dir : ℚ) (n : ℕ) (lo hi : ℚ)
    (hlo : ov (start + dir * lo) = false) :
    ov (start + dir * (bisectLoop ov start dir n lo hi).1) = false := by
  induction n generalizing lo hi with
  | zero => simpa using hlo
  | succ n ih =>
    rw [bisectLoop]
    by_cases hmid : ov (start + dir * ((lo + hi) * (1 / 2))) = true
    · simp only [hmid, if_true]
      exact ih lo ((lo + hi) * (1 / 2)) hlo
    · simp only [Bool.not_eq_true] at hmid
      simp only [hmid, if_false]
      exact ih ((lo + hi) * (1 / 2)) hi hmid

/-- C1 witness: the bisection-safety theorem applied to the horizontal sweep
of the C1 fixture (start 0, direction +1, the full 16 iterations on the
interval [0, 4]). -/
theorem c1_witness :
    overlapsAt c1Room.toMapLike c1Bb.x c1Bb.y c1Bb.w c1Bb.h Axis.X
      (0 + 1 * (bisectLoop
        (overlapsAt c1Room.toMapLike c1Bb.x c1Bb.y c1Bb.w c1Bb.h Axis.X) 0 1 16 0 4).1)
      = false :=
  c1_bisection_lo_safe
    (overlapsAt c1Room.toMapLike c1Bb.x c1Bb.y c1Bb.w c1Bb.h Axis.X) 0 1 16 0 4
    (by with_unfolding_all decide)

/-- C6 counterexample: on a downward platform crossing the snap reports true
but does not put the bottom edge exactly on the platform's top (row 1, top
edge y = 1): the bottom comes to rest 8*EPS above it. -/
theorem c6_counterexample :
    (check_and_snap_platforms c6Old c6New c6Room.toMapLike).1 = true
      ∧ (check_and_snap_platforms c6Old c6New c6Room.toMapLike).2.y
          + (check_and_snap_platforms c6Old c6New c6Room.toMapLike).2.h
          ≠ ((c6New.y + c6New.h).floor : ℚ) := by
  with_unfolding_all decide

/-- C6 amended: check_and_snap_platforms returns true exactly when the
mover's bottom edge crosses downward past a tile row boundary (its floored
bottom row strictly increases) and the row of the new bottom is tagged
Platform or LadderPlatform under either bottom corner; on trigger it zeroes
vy and places the bottom edge 8*EPS above the top of the row boundary just
below the old bottom (exactly on the platform top only up to that margin,
and only when a single row was crossed); otherwise it returns false and
leaves the rectangle untouched. -/
theorem c6_platform_snap_characterization (old_bb new_bb : BoundingBox) (map : MapLike) :
    ((check_and_snap_platforms old_bb new_bb map).1 = true ↔
      ((old_bb.y + old_bb.h).floor < (new_bb.y + new_bb.h).floor
        ∧ (map.is_platform_at new_bb.x.floor (new_bb.y + new_bb.h).floor = true
           ∨ map.is_platform_at (new_bb.x + new_bb.w).floor (new_bb.y + new_bb.h).floor = true)))
    ∧ ((check_and_snap_platforms old_bb new_bb map).1 = true →
        (check_and_snap_platforms old_bb new_bb map).2 =
          { new_bb with
              vy := 0,
              y := ((old_bb.y + old_bb.h).floor : ℚ) - old_bb.h - EPS * 8 + 1 })
    ∧ ((check_and_snap_platforms old_bb new_bb map).1 = false →
        (check_and_snap_platforms old_bb new_bb map).2 = new_bb) := by
  unfold check_and_snap_platforms
  split_ifs with hcond
  · obtain ⟨h1, h2⟩ := hcond
    refine ⟨?_, fun _ => rfl, fun hfalse => by simp at hfalse⟩
    simp only [true_iff]
    exact ⟨h1, by simpa using h2⟩
  · refine ⟨?_, fun htrue => by simp at htrue, fun _ => rfl⟩
    simp only [false_iff]
    intro hrhs
    exact hcond ⟨hrhs.1, by simpa using hrhs.2⟩

/-- C6 witness: the characterization applied at the concrete platform
fixture. -/
theorem c6_witness :
    (check_and_snap_platforms c6Old c6New c6Room.toMapLike).1 = true :=
  ((c6_platform_snap_characterization c6Old c6New c6Room.toMapLike).1).mpr
    (by with_unfolding_all decide)

/-- C5 counterexample: all conditions of the claim hold - the mover falls,
its top just crossed into row 1, the column adjacent to its leading edge in
the travel direction (column 3) is solid there and open one row above, and
the horizontal gap is 1/20 of a tile, well within the claimed tolerance of
approximately 0.1 - yet check_and_snap_hang returns nothing, because the
code's actual tolerance is 3*EPS = 0.0003 of a tile. -/
theorem c5_counterexample :
    check_and_snap_hang c5Old c5New c5Room.toMapLike Dir.Right = none
      ∧ c5Old.y < c5New.y
      ∧ c5Old.y.floor ≠ c5New.y.floor
      ∧ c5Room.toMapLike.is_solid_at_tile 3 c5New.y.floor = true
      ∧ c5Room.toMapLike.is_solid_at_tile 3 (c5New.y.floor - 1) = false
      ∧ (3 : ℚ) - (c5New.x + c5New.w) = 1 / 20
      ∧ ((1 : ℚ) / 20 ≤ 1 / 10) := by
  with_unfolding_all decide

/-- C5 amended: check_and_snap_hang returns a snapped position exactly when
the mover is falling, its top edge has just crossed into a new tile row, the
probed wall column (derived from the leading edge nudged by 2*EPS in the
travel direction) is solid at that row and non-solid one row above, and the
horizontal gap between the leading edge and that column's near face is at
most 3*EPS = 0.0003 of a tile (not approximately 0.1); the snapped position
is EPS away from flush against the wall with the top aligned to the lip's
top edge. -/
theorem c5_hang_characterization (old_bb new_bb : BoundingBox) (map : MapLike)
    (dir : Dir) (p : Pos) :
    check_and_snap_hang old_bb new_bb map dir = some p ↔
      (old_bb.y < new_bb.y
        ∧ hangDistToWall new_bb dir ≤ EPS * 3
        ∧ old_bb.y.floor ≠ new_bb.y.floor
        ∧ map.is_solid_at_tile (hangWallTx new_bb dir) new_bb.y.floor = true
        ∧ map.is_solid_at_tile (hangWallTx new_bb dir) (new_bb.y.floor - 1) = false
        ∧ p = ⟨hangSnappedX new_bb dir, (new_bb.y.floor : ℚ)⟩) := by
  simp only [check_and_snap_hang]
  by_cases h1 : new_bb.y ≤ old_bb.y
  · rw [if_pos h1]
    constructor
    · intro hc
      exact Option.noConfusion hc
    · rintro ⟨hlt, -⟩
      exact absurd h1 (not_le.mpr hlt)
  · rw [if_neg h1]
    by_cases h2 : hangDistToWall new_bb dir > EPS * 3
    · rw [if_pos h2]
      constructor
      · intro hc
        exact Option.noConfusion hc
      · rintro ⟨-, hle, -⟩
        exact absurd h2 (not_lt.mpr hle)
    · rw [if_neg h2]
      by_cases h3 : old_bb.y.floor = new_bb.y.floor
      · rw [if_pos h3]
        constructor
        · intro hc
          exact Option.noConfusion hc
        · rintro ⟨-, -, hne, -⟩
          exact absurd h3 hne
      · rw [if_neg h3]
        by_cases h4 : (!map.is_solid_at_tile (hangWallTx new_bb dir) new_bb.y.floor
            || map.is_solid_at_tile (hangWallTx new_bb dir) (new_bb.y.floor - 1)) = true
        · rw [if_pos h4]
          constructor
          · intro hc
            exact Option.noConfusion hc
          · rintro ⟨-, -, -, hsolid, habove, -⟩
            rw [hsolid, habove] at h4
            simp at h4
        · rw [if_neg h4]
          simp only [Bool.or_eq_true, Bool.not_eq_true', not_or, Bool.not_eq_false,
            Bool.not_eq_true] at h4
          obtain ⟨hs, ha⟩ := h4
          simp only [Option.some.injEq]
          constructor
          · intro hp
            exact ⟨lt_of_not_le h1, le_of_not_lt h2, h3, hs, ha, hp.symm⟩
          · rintro ⟨-, -, -, -, -, hp⟩
            exact hp.symm

/-- C5 witness: the characterization applied at a flush wall contact (gap 0),
where the code does return the snapped hang position. -/
theorem c5_witness :
    check_and_snap_hang
      { x := 5/2, y := 4/5, w := 1/2, h := 1/2, vx := 0, vy := 0 }
      { x := 5/2, y := 21/20, w := 1/2, h := 1/2, vx := 0, vy := 1/4 }
      c5Room.toMapLike Dir.Right = some ⟨24999/10000, 1⟩ := by
  have hW : hangWallTx { x := 5/2, y := 21/20, w := 1/2, h := 1/2, vx := 0, vy := 1/4 }
      Dir.Right = 3 := by
    with_unfolding_all decide
  have hF : (({ x := 5/2, y := 21/20, w := 1/2, h := 1/2, vx := 0, vy := 1/4 } :
      BoundingBox).y).floor = (1 : ℤ) := by
    with_unfolding_all decide
  refine (c5_hang_characterization
      { x := 5/2, y := 4/5, w := 1/2, h := 1/2, vx := 0, vy := 0 }
      { x := 5/2, y := 21/20, w := 1/2, h := 1/2, vx := 0, vy := 1/4 }
      c5Room.toMapLike Dir.Right ⟨24999/10000, 1⟩).mpr
    ⟨by with_unfolding_all decide, by with_unfolding_all decide,
     by with_unfolding_all decide, by with_unfolding_all decide,
     by with_unfolding_all decide, ?_⟩
  rw [hF]
  simp only [hangSnappedX, hW]
  norm_num [EPS]

/-- C8 counterexample: a file named `other.json` does not match the
`room_<digits>.json` pattern, yet the folder enumeration keeps it as a load
candidate - the source filters only on the `json` extension. -/
theorem c8_counterexample :
    get_dir_entries [⟨"other.json", true⟩] = [⟨"other.json", true⟩]
      ∧ specRoomFilePattern "other.json" = false := by
  with_unfolding_all decide

/-- C8 amended: the folder enumeration considers exactly the regular files
whose extension is `json` (regardless of the rest of the name - the
`room_<digits>` pattern is used only when generating the next available file
name), ordered deterministically by sorting on filename. -/
theorem c8_enumeration_characterization (listing : List DirEntry) (e : DirEntry) :
    (e ∈ get_dir_entries listing
      ↔ e ∈ listing ∧ e.is_file = true ∧ fileExtension e.name = some "json")
    ∧ List.Pairwise (fun a b : DirEntry => a.name ≤ b.name) (get_dir_entries listing) := by
  constructor
  · unfold get_dir_entries
    rw [List.mem_mergeSort, List.mem_filter]
    simp [Bool.and_eq_true, beq_iff_eq, and_assoc]
  · have htrans : ∀ a b c : DirEntry,
        decide (a.name ≤ b.name) = true → decide (b.name ≤ c.name) = true →
        decide (a.name ≤ c.name) = true := by
      intro a b c hab hbc
      simp only [decide_eq_true_eq] at hab hbc ⊢
      exact le_trans hab hbc
    have htotal : ∀ a b : DirEntry,
        (decide (a.name ≤ b.name) || decide (b.name ≤ a.name)) = true := by
      intro a b
      simp only [Bool.or_eq_true, decide_eq_true_eq]
      exact le_total a.name b.name
    have hs := @List.sorted_mergeSort DirEntry
      (fun a b => decide (a.name ≤ b.name)) htrans htotal
      (listing.filter (fun e2 => e2.is_file && (fileExtension e2.name == some "json")))
    exact hs.imp (fun hab => of_decide_eq_true hab)

/-! Helper lemmas for the resize machinery. -/

theorem mkGrid_length {α : Type} (w h : ℕ) (f : ℕ → ℕ → α) :
    (mkGrid w h f).length = h * w := by
  simp [mkGrid]

theorem mkGrid_getElem {α : Type} (w h : ℕ) (f : ℕ → ℕ → α) (n : ℕ)
    (hn : n < (mkGrid w h f).length) :
    (mkGrid w h f)[n] = f (n % w) (n / w) := by
  simp [mkGrid]

theorem mkGrid_getD {α : Type} (w h : ℕ) (f : ℕ → ℕ → α) (i j : ℕ) (d : α)
    (hi : i < w) (hj : j < h) :
    (mkGrid w h f).getD (i + w * j) d = f i j := by
  have hidx : i + w * j < h * w := by
    calc i + w * j < w + w * j := by omega
    _ = w * (j + 1) := by ring
    _ ≤ w * h := Nat.mul_le_mul_left w hj
    _ = h * w := Nat.mul_comm w h
  rw [List.getD_eq_getElem?_getD, List.getElem?_eq_getElem (by rw [mkGrid_length]; exact hidx)]
  rw [mkGrid_getElem w h f _ (by rw [mkGrid_length]; exact hidx)]
  have hmod : (i + w * j) % w = i := by
    rw [Nat.add_mul_mod_self_left, Nat.mod_eq_of_lt hi]
  have hdiv : (i + w * j) / w = j := by
    rw [Nat.add_mul_div_left i j (by omega : 0 < w), Nat.div_eq_of_lt hi, Nat.zero_add]
  rw [hmod, hdiv]
  rfl

theorem mkGrid_congr {α : Type} (w h : ℕ) (f g : ℕ → ℕ → α)
    (hfg : ∀ i j, i < w → j < h → f i j = g i j) :
    mkGrid w h f = mkGrid w h g := by
  apply List.ext_getElem
  · rw [mkGrid_length, mkGrid_length]
  · intro n h1 h2
    rw [mkGrid_getElem w h f n h1, mkGrid_getElem w h g n h2]
    rw [mkGrid_length] at h1
    have hw : 0 < w := by
      rcases Nat.eq_zero_or_pos w with hz | hp
      · subst hz; simp at h1
      · exact hp
    have h1w : n < w * h := by rw [Nat.mul_comm]; exact h1
    exact hfg _ _ (Nat.mod_lt _ hw) (Nat.div_lt_of_lt_mul h1w)

theorem mkGrid_recompose {α : Type} (w h : ℕ) (l : List α) (d : α)
    (hlen : l.length = h * w) :
    mkGrid w h (fun i j => l.getD (i + w * j) d) = l := by
  apply List.ext_getElem
  · rw [mkGrid_length, hlen]
  · intro n h1 h2
    rw [mkGrid_getElem w h _ n h1]
    have hmd : n % w + w * (n / w) = n := Nat.mod_add_div n w
    rw [hmd, List.getD_eq_getElem?_getD, List.getElem?_eq_getElem h2]
    rfl

theorem resize_shrink_proj (r : Room) :
    ((r.resize_shrink).x = r.x
        + (scanRun (fun xx => r.colBlank xx) (fun xx => r.colBlank (r.w - xx - 1)) r.w).removeA)
    ∧ ((r.resize_shrink).y = r.y
        + (scanRun (fun yy => r.rowBlank yy) (fun yy => r.rowBlank (r.h - yy - 1)) r.h).removeA)
    ∧ ((r.resize_shrink).w = r.w
        - (scanRun (fun xx => r.colBlank xx) (fun xx => r.colBlank (r.w - xx - 1)) r.w).removeA
        - (scanRun (fun xx => r.colBlank xx) (fun xx => r.colBlank (r.w - xx - 1)) r.w).removeB)
    ∧ ((r.resize_shrink).h = r.h
        - (scanRun (fun yy => r.rowBlank yy) (fun yy => r.rowBlank (r.h - yy - 1)) r.h).removeB
        - (scanRun (fun yy => r.rowBlank yy) (fun yy => r.rowBlank (r.h - yy - 1)) r.h).removeA) :=
  ⟨rfl, rfl, rfl, rfl⟩

theorem scanStep_formula (p q : ℕ → Bool) (n L Q k : ℕ) (hk : k < n)
    (hpL : ∀ i, i < L → p i = true) (hqQ : ∀ i, i < Q → q i = true)
    (hpF : L < n → p L = false) (hqF : Q < n → q Q = false) :
    scanStep p q
        ⟨min k L, min k Q, decide (k ≤ L), decide (k ≤ Q), decide (max L Q < k)⟩ k =
      ⟨min (k + 1) L, min (k + 1) Q, decide (k + 1 ≤ L), decide (k + 1 ≤ Q),
        decide (max L Q < k + 1)⟩ := by
  have hdA : (decide (k ≤ L) && p k) = decide (k + 1 ≤ L) := by
    rcases lt_trichotomy k L with h | h | h
    · rw [hpL k h, Bool.and_true]
      exact decide_eq_decide.mpr (by omega)
    · subst h
      rw [hpF hk, Bool.and_false]
      symm
      rw [decide_eq_false_iff_not]
      omega
    · have hkL : decide (k ≤ L) = false := by rw [decide_eq_false_iff_not]; omega
      rw [hkL, Bool.false_and]
      symm
      rw [decide_eq_false_iff_not]
      omega
  have hdB : (decide (k ≤ Q) && q k) = decide (k + 1 ≤ Q) := by
    rcases lt_trichotomy k Q with h | h | h
    · rw [hqQ k h, Bool.and_true]
      exact decide_eq_decide.mpr (by omega)
    · subst h
      rw [hqF hk, Bool.and_false]
      symm
      rw [decide_eq_false_iff_not]
      omega
    · have hkQ : decide (k ≤ Q) = false := by rw [decide_eq_false_iff_not]; omega
      rw [hkQ, Bool.false_and]
      symm
      rw [decide_eq_false_iff_not]
      omega
  simp only [scanStep, hdA, hdB]
  by_cases hstop : max L Q < k
  · rw [if_pos (by simpa using hstop)]
    have e1 : min k L = min (k + 1) L := by omega
    have e2 : min k Q = min (k + 1) Q := by omega
    have e3 : decide (k ≤ L) = decide (k + 1 ≤ L) := decide_eq_decide.mpr (by omega)
    have e4 : decide (k ≤ Q) = decide (k + 1 ≤ Q) := decide_eq_decide.mpr (by omega)
    have e5 : decide (max L Q < k) = decide (max L Q < k + 1) :=
      decide_eq_decide.mpr (by omega)
    rw [e1, e2, e3, e4, e5]
  · rw [if_neg (by simpa using hstop)]
    by_cases hboth : k + 1 ≤ L ∨ k + 1 ≤ Q
    · have h2 : (!decide (k + 1 ≤ L) && !decide (k + 1 ≤ Q)) = false := by
        rcases hboth with h | h
        · rw [decide_eq_true h]
          simp
        · rw [decide_eq_true h]
          simp
      rw [if_neg (by simp [h2])]
      have e1 : min k L + (if decide (k + 1 ≤ L) = true then 1 else 0) = min (k + 1) L := by
        by_cases hL2 : k + 1 ≤ L
        · rw [if_pos (decide_eq_true hL2)]
          omega
        · rw [if_neg (by simp [decide_eq_false_iff_not, hL2])]
          omega
      have e2 : min k Q + (if decide (k + 1 ≤ Q) = true then 1 else 0) = min (k + 1) Q := by
        by_cases hQ2 : k + 1 ≤ Q
        · rw [if_pos (decide_eq_true hQ2)]
          omega
        · rw [if_neg (by simp [decide_eq_false_iff_not, hQ2])]
          omega
      have e5 : false = decide (max L Q < k + 1) := by
        symm
        rw [decide_eq_false_iff_not]
        omega
      rw [e1, e2, e5]
    · push_neg at hboth
      obtain ⟨hL2, hQ2⟩ := hboth
      have hdl : decide (k + 1 ≤ L) = false := by rw [decide_eq_false_iff_not]; omega
      have hdq : decide (k + 1 ≤ Q) = false := by rw [decide_eq_false_iff_not]; omega
      rw [if_pos (by rw [hdl, hdq]; rfl)]
      have e1 : min k L = min (k + 1) L := by omega
      have e2 : min k Q = min (k + 1) Q := by omega
      have e5 : true = decide (max L Q < k + 1) := by
        symm
        rw [decide_eq_true_eq]
        omega
      rw [e1, e2, e5]

theorem scanFold_formula (p q : ℕ → Bool) (n L Q : ℕ)
    (hpL : ∀ i, i < L → p i = true) (hqQ : ∀ i, i < Q → q i = true)
    (hpF : L < n → p L = false) (hqF : Q < n → q Q = false) :
    ∀ k, k ≤ n →
      (List.range k).foldl (scanStep p q) ⟨0, 0, true, true, false⟩ =
        ⟨min k L, min k Q, decide (k ≤ L), decide (k ≤ Q), decide (max L Q < k)⟩ := by
  intro k
  induction k with
  | zero =>
    intro _
    simp only [List.range_zero, List.foldl_nil, ScanState.mk.injEq]
    refine ⟨by omega, by omega, ?_, ?_, ?_⟩
    · symm; rw [decide_eq_true_eq]; omega
    · symm; rw [decide_eq_true_eq]; omega
    · symm; rw [decide_eq_false_iff_not]; omega
  | succ k ih =>
    intro hk1
    rw [List.range_succ, List.foldl_append, List.foldl_cons, List.foldl_nil]
    rw [ih (by omega)]
    exact scanStep_formula p q n L Q k (by omega) hpL hqQ hpF hqF

theorem scanRun_eq_of (p q : ℕ → Bool) (n L Q : ℕ)
    (hLn : L ≤ n) (hQn : Q ≤ n)
    (hpL : ∀ i, i < L → p i = true) (hqQ : ∀ i, i < Q → q i = true)
    (hpF : L < n → p L = false) (hqF : Q < n → q Q = false) :
    (scanRun p q n).removeA = L ∧ (scanRun p q n).removeB = Q := by
  rw [scanRun, scanFold_formula p q n L Q hpL hqQ hpF hqF n (le_refl n)]
  constructor
  · show min n L = L
    omega
  · show min n Q = Q
    omega

theorem colBlank_eq_false_of_cell (r : Room) (cx cy : ℕ) (hcy : cy < r.h)
    (hcell : cellBlank (r.get_absolute cx cy) = false) : r.colBlank cx = false := by
  by_contra hcol
  rw [Bool.not_eq_false, Room.colBlank, List.all_eq_true] at hcol
  have := hcol cy (List.mem_range.mpr hcy)
  rw [hcell] at this
  exact Bool.false_ne_true this

theorem rowBlank_eq_false_of_cell (r : Room) (cx cy : ℕ) (hcx : cx < r.w)
    (hcell : cellBlank (r.get_absolute cx cy) = false) : r.rowBlank cy = false := by
  by_contra hrow
  rw [Bool.not_eq_false, Room.rowBlank, List.all_eq_true] at hrow
  have := hrow cx (List.mem_range.mpr hcx)
  rw [hcell] at this
  exact Bool.false_ne_true this

theorem c10_resize_shrink_positive (r : Room)
    (hcell : ∃ cx cy, cx < r.w ∧ cy < r.h ∧ cellBlank (r.get_absolute cx cy) = false) :
    (scanRun (fun xx => r.colBlank xx) (fun xx => r.colBlank (r.w - xx - 1)) r.w).removeA
        + (scanRun (fun xx => r.colBlank xx) (fun xx => r.colBlank (r.w - xx - 1)) r.w).removeB
        < r.w
    ∧ (scanRun (fun yy => r.rowBlank yy) (fun yy => r.rowBlank (r.h - yy - 1)) r.h).removeA
        + (scanRun (fun yy => r.rowBlank yy) (fun yy => r.rowBlank (r.h - yy - 1)) r.h).removeB
        < r.h
    ∧ 0 < (r.resize_shrink).w ∧ 0 < (r.resize_shrink).h := by
  obtain ⟨cx, cy, hcx, hcy, hcell⟩ := hcell
  have hcol : r.colBlank cx = false := colBlank_eq_false_of_cell r cx cy hcy hcell
  have hrow : r.rowBlank cy = false := rowBlank_eq_false_of_cell r cx cy hcx hcell
  have hcols :
      (scanRun (fun xx => r.colBlank xx) (fun xx => r.colBlank (r.w - xx - 1)) r.w).removeA
        + (scanRun (fun xx => r.colBlank xx) (fun xx => r.colBlank (r.w - xx - 1)) r.w).removeB
        < r.w := by
    have hLex : ∃ i, r.colBlank i = false := ⟨cx, hcol⟩
    have hqc : r.colBlank (r.w - (r.w - 1 - cx) - 1) = false := by
      have harith : r.w - (r.w - 1 - cx) - 1 = cx := by omega
      rw [harith]
      exact hcol
    have hQex : ∃ i, r.colBlank (r.w - i - 1) = false := ⟨r.w - 1 - cx, hqc⟩
    have hLc : Nat.find hLex ≤ cx := Nat.find_min' hLex hcol
    have hQc : Nat.find hQex ≤ r.w - 1 - cx := Nat.find_min' hQex hqc
    have hres := scanRun_eq_of (fun xx => r.colBlank xx) (fun xx => r.colBlank (r.w - xx - 1))
      r.w (Nat.find hLex) (Nat.find hQex)
      (by omega) (by omega)
      (fun i hi => by
        have h2 := Nat.find_min hLex hi
        cases hcb : r.colBlank i
        · exact absurd hcb h2
        · exact hcb)
      (fun i hi => by
        have h2 := Nat.find_min hQex hi
        cases hcb : r.colBlank (r.w - i - 1)
        · exact absurd hcb h2
        · exact hcb)
      (fun _ => Nat.find_spec hLex)
      (fun _ => Nat.find_spec hQex)
    rw [hres.1, hres.2]
    omega
  have hrows :
      (scanRun (fun yy => r.rowBlank yy) (fun yy => r.rowBlank (r.h - yy - 1)) r.h).removeA
        + (scanRun (fun yy => r.rowBlank yy) (fun yy => r.rowBlank (r.h - yy - 1)) r.h).removeB
        < r.h := by
    have hLex : ∃ i, r.rowBlank i = false := ⟨cy, hrow⟩
    have hqc : r.rowBlank (r.h - (r.h - 1 - cy) - 1) = false := by
      have harith : r.h - (r.h - 1 - cy) - 1 = cy := by omega
      rw [harith]
      exact hrow
    have hQex : ∃ i, r.rowBlank (r.h - i - 1) = false := ⟨r.h - 1 - cy, hqc⟩
    have hLc : Nat.find hLex ≤ cy := Nat.find_min' hLex hrow
    have hQc : Nat.find hQex ≤ r.h - 1 - cy := Nat.find_min' hQex hqc
    have hres := scanRun_eq_of (fun yy => r.rowBlank yy) (fun yy => r.rowBlank (r.h - yy - 1))
      r.h (Nat.find hLex) (Nat.find hQex)
      (by omega) (by omega)
      (fun i hi => by
        have h2 := Nat.find_min hLex hi
        cases hcb : r.rowBlank i
        · exact absurd hcb h2
        · exact hcb)
      (fun i hi => by
        have h2 := Nat.find_min hQex hi
        cases hcb : r.rowBlank (r.h - i - 1)
        · exact absurd hcb h2
        · exact hcb)
      (fun _ => Nat.find_spec hLex)
      (fun _ => Nat.find_spec hQex)
    rw [hres.1, hres.2]
    omega
  refine ⟨hcols, hrows, ?_, ?_⟩
  · rw [(resize_shrink_proj r).2.2.1]
    omega
  · rw [(resize_shrink_proj r).2.2.2]
    omega

/-- C10 witness: the no-underflow theorem applied to the concrete 2-by-1 room
with a Stone cell. -/
theorem c10_witness :
    0 < (c4Room.resize_shrink).w ∧ 0 < (c4Room.resize_shrink).h :=
  ⟨(c10_resize_shrink_positive c4Room ⟨1, 0, by decide, by decide, by decide⟩).2.2.1,
   (c10_resize_shrink_positive c4Room ⟨1, 0, by decide, by decide, by decide⟩).2.2.2⟩

theorem resize_to_fit_proj (r : Room) (px py : ℤ) :
    ((r.resize_to_fit px py).w = r.w + padLeft r px + padRight r px)
    ∧ ((r.resize_to_fit px py).h = r.h + padBottom r py + padTop r py)
    ∧ ((r.resize_to_fit px py).x = min r.x px)
    ∧ ((r.resize_to_fit px py).y = min r.y py) :=
  ⟨rfl, rfl, rfl, rfl⟩

theorem resize_to_fit_base_getD (r : Room) (px py : ℤ) (i j : ℕ) (d : BaseTile)
    (hi : i < r.w + padLeft r px + padRight r px)
    (hj : j < r.h + padBottom r py + padTop r py) :
    (r.resize_to_fit px py).base.getD (i + (r.w + padLeft r px + padRight r px) * j) d =
      if padLeft r px ≤ i ∧ i < padLeft r px + r.w
          ∧ padTop r py ≤ j ∧ j < padTop r py + r.h then
        r.base.getD ((i - padLeft r px) + r.w * (j - padTop r py)) BaseTile.NotPartOfRoom
      else BaseTile.NotPartOfRoom := by
  have hb : (r.resize_to_fit px py).base =
      mkGrid (r.w + padLeft r px + padRight r px) (r.h + padBottom r py + padTop r py)
        (fun i2 j2 =>
          if padLeft r px ≤ i2 ∧ i2 < padLeft r px + r.w
              ∧ padTop r py ≤ j2 ∧ j2 < padTop r py + r.h then
            r.base.getD ((i2 - padLeft r px) + r.w * (j2 - padTop r py)) BaseTile.NotPartOfRoom
          else BaseTile.NotPartOfRoom) := rfl
  rw [hb, mkGrid_getD _ _ _ i j d hi hj]

theorem resize_to_fit_overlay_getD (r : Room) (px py : ℤ) (i j : ℕ) (d : OverlayTile)
    (hi : i < r.w + padLeft r px + padRight r px)
    (hj : j < r.h + padBottom r py + padTop r py) :
    (r.resize_to_fit px py).overlay.getD (i + (r.w + padLeft r px + padRight r px) * j) d =
      if padLeft r px ≤ i ∧ i < padLeft r px + r.w
          ∧ padTop r py ≤ j ∧ j < padTop r py + r.h then
        r.overlay.getD ((i - padLeft r px) + r.w * (j - padTop r py)) OverlayTile.None
      else OverlayTile.None := by
  have hb : (r.resize_to_fit px py).overlay =
      mkGrid (r.w + padLeft r px + padRight r px) (r.h + padBottom r py + padTop r py)
        (fun i2 j2 =>
          if padLeft r px ≤ i2 ∧ i2 < padLeft r px + r.w
              ∧ padTop r py ≤ j2 ∧ j2 < padTop r py + r.h then
            r.overlay.getD ((i2 - padLeft r px) + r.w * (j2 - padTop r py)) OverlayTile.None
          else OverlayTile.None) := rfl
  rw [hb, mkGrid_getD _ _ _ i j d hi hj]

theorem resize_to_fit_get_absolute (r : Room) (px py : ℤ) (i j : ℕ)
    (hi : i < r.w + padLeft r px + padRight r px)
    (hj : j < r.h + padBottom r py + padTop r py) :
    (r.resize_to_fit px py).get_absolute i j =
      if padLeft r px ≤ i ∧ i < padLeft r px + r.w
          ∧ padTop r py ≤ j ∧ j < padTop r py + r.h then
        r.get_absolute (i - padLeft r px) (j - padTop r py)
      else (BaseTile.NotPartOfRoom, OverlayTile.None) := by
  have hw : (r.resize_to_fit px py).w = r.w + padLeft r px + padRight r px := rfl
  rw [Room.get_absolute, hw,
    resize_to_fit_base_getD r px py i j BaseTile.NotPartOfRoom hi hj,
    resize_to_fit_overlay_getD r px py i j OverlayTile.None hi hj]
  rw [Room.get_absolute]
  split_ifs with hcond
  · rfl
  · rfl

theorem allRange_iff (n : ℕ) (p : ℕ → Bool) :
    (List.range n).all p = true ↔ ∀ i, i < n → p i = true := by
  rw [List.all_eq_true]
  constructor
  · intro h i hi
    exact h i (List.mem_range.mpr hi)
  · intro h x hx
    exact h x (List.mem_range.mp hx)

theorem resize_to_fit_colBlank_shift (r : Room) (px py : ℤ) (k : ℕ) (hk : k < r.w) :
    (r.resize_to_fit px py).colBlank (padLeft r px + k) = r.colBlank k := by
  have hh : (r.resize_to_fit px py).h = r.h + padBottom r py + padTop r py := rfl
  cases hc : r.colBlank k with
  | true =>
    rw [Room.colBlank, hh, allRange_iff]
    intro j hj
    rw [resize_to_fit_get_absolute r px py _ j (by omega) hj]
    by_cases hj2 : padTop r py ≤ j ∧ j < padTop r py + r.h
    · rw [if_pos ⟨by omega, by omega, hj2.1, hj2.2⟩]
      have hidx : padLeft r px + k - padLeft r px = k := by omega
      rw [hidx]
      rw [Room.colBlank, allRange_iff] at hc
      exact hc (j - padTop r py) (by omega)
    · rw [if_neg (by rintro ⟨-, -, hc3, hc4⟩; exact hj2 ⟨hc3, hc4⟩)]
      rfl
  | false =>
    by_contra hg
    rw [Bool.not_eq_false] at hg
    rw [Room.colBlank, hh, allRange_iff] at hg
    have hcontra : r.colBlank k = true := by
      rw [Room.colBlank, allRange_iff]
      intro cy hcy
      have h2 := hg (padTop r py + cy) (by omega)
      rw [resize_to_fit_get_absolute r px py _ _ (by omega) (by omega)] at h2
      rw [if_pos ⟨by omega, by omega, by omega, by omega⟩] at h2
      have hidx1 : padLeft r px + k - padLeft r px = k := by omega
      have hidx2 : padTop r py + cy - padTop r py = cy := by omega
      rwa [hidx1, hidx2] at h2
    rw [hcontra] at hc
    exact Bool.noConfusion hc

theorem resize_to_fit_colBlank_pad (r : Room) (px py : ℤ) (c : ℕ)
    (hc : c < r.w + padLeft r px + padRight r px)
    (hout : c < padLeft r px ∨ padLeft r px + r.w ≤ c) :
    (r.resize_to_fit px py).colBlank c = true := by
  have hh : (r.resize_to_fit px py).h = r.h + padBottom r py + padTop r py := rfl
  rw [Room.colBlank, hh, allRange_iff]
  intro j hj
  rw [resize_to_fit_get_absolute r px py c j hc hj]
  rw [if_neg (by rintro ⟨ha, hb, -, -⟩; omega)]
  rfl

theorem resize_to_fit_rowBlank_shift (r : Room) (px py : ℤ) (k : ℕ) (hk : k < r.h) :
    (r.resize_to_fit px py).rowBlank (padTop r py + k) = r.rowBlank k := by
  have hw : (r.resize_to_fit px py).w = r.w + padLeft r px + padRight r px := rfl
  cases hc : r.rowBlank k with
  | true =>
    rw [Room.rowBlank, hw, allRange_iff]
    intro i hi
    rw [resize_to_fit_get_absolute r px py i _ hi (by omega)]
    by_cases hi2 : padLeft r px ≤ i ∧ i < padLeft r px + r.w
    · rw [if_pos ⟨hi2.1, hi2.2, by omega, by omega⟩]
      have hidx : padTop r py + k - padTop r py = k := by omega
      rw [hidx]
      rw [Room.rowBlank, allRange_iff] at hc
      exact hc (i - padLeft r px) (by omega)
    · rw [if_neg (by rintro ⟨hc1, hc2, -, -⟩; exact hi2 ⟨hc1, hc2⟩)]
      rfl
  | false =>
    by_contra hg
    rw [Bool.not_eq_false] at hg
    rw [Room.rowBlank, hw, allRange_iff] at hg
    have hcontra : r.rowBlank k = true := by
      rw [Room.rowBlank, allRange_iff]
      intro cx hcx
      have h2 := hg (padLeft r px + cx) (by omega)
      rw [resize_to_fit_get_absolute r px py _ _ (by omega) (by omega)] at h2
      rw [if_pos ⟨by omega, by omega, by omega, by omega⟩] at h2
      have hidx1 : padLeft r px + cx - padLeft r px = cx := by omega
      have hidx2 : padTop r py + k - padTop r py = k := by omega
      rwa [hidx1, hidx2] at h2
    rw [hcontra] at hc
    exact Bool.noConfusion hc

theorem resize_to_fit_rowBlank_pad (r : Room) (px py : ℤ) (c : ℕ)
    (hc : c < r.h + padBottom r py + padTop r py)
    (hout : c < padTop r py ∨ padTop r py + r.h ≤ c) :
    (r.resize_to_fit px py).rowBlank c = true := by
  have hw : (r.resize_to_fit px py).w = r.w + padLeft r px + padRight r px := rfl
  rw [Room.rowBlank, hw, allRange_iff]
  intro i hi
  rw [resize_to_fit_get_absolute r px py i c hi hc]
  rw [if_neg (by rintro ⟨-, -, hc3, hc4⟩; omega)]
  rfl

theorem resize_to_fit_colScan (r : Room) (px py : ℤ) (hw : 0 < r.w)
    (hleft : r.colBlank 0 = false) (hright : r.colBlank (r.w - 1) = false) :
    (scanRun (fun xx => (r.resize_to_fit px py).colBlank xx)
        (fun xx => (r.resize_to_fit px py).colBlank ((r.resize_to_fit px py).w - xx - 1))
        (r.resize_to_fit px py).w).removeA = padLeft r px
    ∧ (scanRun (fun xx => (r.resize_to_fit px py).colBlank xx)
        (fun xx => (r.resize_to_fit px py).colBlank ((r.resize_to_fit px py).w - xx - 1))
        (r.resize_to_fit px py).w).removeB = padRight r px := by
  have hgw : (r.resize_to_fit px py).w = r.w + padLeft r px + padRight r px := rfl
  rw [hgw]
  refine scanRun_eq_of _ _ _ (padLeft r px) (padRight r px)
    (by omega) (by omega) ?_ ?_ ?_ ?_
  · intro i hi
    exact resize_to_fit_colBlank_pad r px py i (by omega) (Or.inl hi)
  · intro i hi
    exact resize_to_fit_colBlank_pad r px py _ (by omega) (Or.inr (by omega))
  · intro _
    have hs := resize_to_fit_colBlank_shift r px py 0 hw
    rw [Nat.add_zero] at hs
    rw [hs]
    exact hleft
  · intro _
    have harith : r.w + padLeft r px + padRight r px - padRight r px - 1
        = padLeft r px + (r.w - 1) := by omega
    rw [harith, resize_to_fit_colBlank_shift r px py (r.w - 1) (by omega)]
    exact hright

theorem resize_to_fit_rowScan (r : Room) (px py : ℤ) (hh : 0 < r.h)
    (htop : r.rowBlank 0 = false) (hbottom : r.rowBlank (r.h - 1) = false) :
    (scanRun (fun yy => (r.resize_to_fit px py).rowBlank yy)
        (fun yy => (r.resize_to_fit px py).rowBlank ((r.resize_to_fit px py).h - yy - 1))
        (r.resize_to_fit px py).h).removeA = padTop r py
    ∧ (scanRun (fun yy => (r.resize_to_fit px py).rowBlank yy)
        (fun yy => (r.resize_to_fit px py).rowBlank ((r.resize_to_fit px py).h - yy - 1))
        (r.resize_to_fit px py).h).removeB = padBottom r py := by
  have hgh : (r.resize_to_fit px py).h = r.h + padBottom r py + padTop r py := rfl
  rw [hgh]
  refine scanRun_eq_of _ _ _ (padTop r py) (padBottom r py)
    (by omega) (by omega) ?_ ?_ ?_ ?_
  · intro i hi
    exact resize_to_fit_rowBlank_pad r px py i (by omega) (Or.inl hi)
  · intro i hi
    exact resize_to_fit_rowBlank_pad r px py _ (by omega) (Or.inr (by omega))
  · intro _
    have hs := resize_to_fit_rowBlank_shift r px py 0 hh
    rw [Nat.add_zero] at hs
    rw [hs]
    exact htop
  · intro _
    have harith : r.h + padBottom r py + padTop r py - padBottom r py - 1
        = padTop r py + (r.h - 1) := by omega
    rw [harith, resize_to_fit_rowBlank_shift r px py (r.h - 1) (by omega)]
    exact hbottom

theorem resize_shrink_base_eq (r : Room) :
    (r.resize_shrink).base = mkGrid (r.resize_shrink).w (r.resize_shrink).h
      (fun xx yy => r.base.getD
        ((xx + (scanRun (fun x2 => r.colBlank x2)
            (fun x2 => r.colBlank (r.w - x2 - 1)) r.w).removeA)
          + r.w * (yy + (scanRun (fun y2 => r.rowBlank y2)
            (fun y2 => r.rowBlank (r.h - y2 - 1)) r.h).removeA))
        BaseTile.Empty) := rfl

theorem resize_shrink_overlay_eq (r : Room) :
    (r.resize_shrink).overlay = mkGrid (r.resize_shrink).w (r.resize_shrink).h
      (fun xx yy => r.overlay.getD
        ((xx + (scanRun (fun x2 => r.colBlank x2)
            (fun x2 => r.colBlank (r.w - x2 - 1)) r.w).removeA)
          + r.w * (yy + (scanRun (fun y2 => r.rowBlank y2)
            (fun y2 => r.rowBlank (r.h - y2 - 1)) r.h).removeA))
        OverlayTile.None) := rfl

/-- C4 amended: for every well-formed room (tile arrays of length w*h,
positive size) none of whose four border strips is entirely
(NotPartOfRoom, None), calling resize_to_fit(x, y) for a point outside the
current rectangle and then resize_shrink returns the room to its original
anchor, width and height, with identical base and overlay contents
(round-trip).  Without the no-blank-border condition the shrink also trims
pre-existing blank borders, as the counterexample shows. -/
theorem c4_resize_roundtrip (r : Room) (px py : ℤ)
    (hbase : r.base.length = r.h * r.w) (hoverlay : r.overlay.length = r.h * r.w)
    (hw : 0 < r.w) (hh : 0 < r.h)
    (houtside : px < r.x ∨ r.x + r.w ≤ px ∨ py < r.y ∨ r.y + r.h ≤ py)
    (htightL : r.colBlank 0 = false) (htightR : r.colBlank (r.w - 1) = false)
    (htightT : r.rowBlank 0 = false) (htightB : r.rowBlank (r.h - 1) = false) :
    ((r.resize_to_fit px py).resize_shrink).x = r.x
    ∧ ((r.resize_to_fit px py).resize_shrink).y = r.y
    ∧ ((r.resize_to_fit px py).resize_shrink).w = r.w
    ∧ ((r.resize_to_fit px py).resize_shrink).h = r.h
    ∧ ((r.resize_to_fit px py).resize_shrink).base = r.base
    ∧ ((r.resize_to_fit px py).resize_shrink).overlay = r.overlay := by
  have hcol := resize_to_fit_colScan r px py hw htightL htightR
  have hrow := resize_to_fit_rowScan r px py hh htightT htightB
  have hp := resize_shrink_proj (r.resize_to_fit px py)
  have hgw : (r.resize_to_fit px py).w = r.w + padLeft r px + padRight r px := rfl
  have hgh : (r.resize_to_fit px py).h = r.h + padBottom r py + padTop r py := rfl
  have hgx : (r.resize_to_fit px py).x = min r.x px := rfl
  have hgy : (r.resize_to_fit px py).y = min r.y py := rfl
  have hX : ((r.resize_to_fit px py).resize_shrink).x = r.x := by
    rw [hp.1, hcol.1, hgx]
    simp only [padLeft]
    omega
  have hY : ((r.resize_to_fit px py).resize_shrink).y = r.y := by
    rw [hp.2.1, hrow.1, hgy]
    simp only [padTop]
    omega
  have hW : ((r.resize_to_fit px py).resize_shrink).w = r.w := by
    rw [hp.2.2.1, hcol.1, hcol.2, hgw]
    omega
  have hH : ((r.resize_to_fit px py).resize_shrink).h = r.h := by
    rw [hp.2.2.2, hrow.1, hrow.2, hgh]
    omega
  have hB : ((r.resize_to_fit px py).resize_shrink).base = r.base := by
    rw [resize_shrink_base_eq (r.resize_to_fit px py), hW, hH, hcol.1, hrow.1, hgw]
    have hcongr := mkGrid_congr r.w r.h
      (fun xx yy => (r.resize_to_fit px py).base.getD
        ((xx + padLeft r px) + (r.w + padLeft r px + padRight r px) * (yy + padTop r py))
        BaseTile.Empty)
      (fun i j => r.base.getD (i + r.w * j) BaseTile.NotPartOfRoom)
      (fun i j hi hj => by
        dsimp only
        rw [resize_to_fit_base_getD r px py (i + padLeft r px) (j + padTop r py)
          BaseTile.Empty (by omega) (by omega)]
        rw [if_pos ⟨by omega, by omega, by omega, by omega⟩]
        have e1 : i + padLeft r px - padLeft r px = i := by omega
        have e2 : j + padTop r py - padTop r py = j := by omega
        rw [e1, e2])
    rw [hcongr, mkGrid_recompose r.w r.h r.base BaseTile.NotPartOfRoom hbase]
  have hO : ((r.resize_to_fit px py).resize_shrink).overlay = r.overlay := by
    rw [resize_shrink_overlay_eq (r.resize_to_fit px py), hW, hH, hcol.1, hrow.1, hgw]
    have hcongr := mkGrid_congr r.w r.h
      (fun xx yy => (r.resize_to_fit px py).overlay.getD
        ((xx + padLeft r px) + (r.w + padLeft r px + padRight r px) * (yy + padTop r py))
        OverlayTile.None)
      (fun i j => r.overlay.getD (i + r.w * j) OverlayTile.None)
      (fun i j hi hj => by
        dsimp only
        rw [resize_to_fit_overlay_getD r px py (i + padLeft r px) (j + padTop r py)
          OverlayTile.None (by omega) (by omega)]
        rw [if_pos ⟨by omega, by omega, by omega, by omega⟩]
        have e1 : i + padLeft r px - padLeft r px = i := by omega
        have e2 : j + padTop r py - padTop r py = j := by omega
        rw [e1, e2])
    rw [hcongr, mkGrid_recompose r.w r.h r.overlay OverlayTile.None hoverlay]
  exact ⟨hX, hY, hW, hH, hB, hO⟩

/-- C4 counterexample: the 2-by-1 room whose left column is already blank.
The point (-1, 0) is outside, its non-blank content trivially lies in the
original footprint, yet grow-then-shrink moves the anchor to x = 1 and
shrinks the width to 1: the shrink also trims the pre-existing blank border,
so the round-trip fails as claimed. -/
theorem c4_counterexample :
    ((-1 : ℤ) < c4Room.x)
      ∧ ((c4Room.resize_to_fit (-1) 0).resize_shrink).x ≠ c4Room.x
      ∧ ((c4Room.resize_to_fit (-1) 0).resize_shrink).w ≠ c4Room.w := by
  decide

/-- C4 witness: the round-trip theorem applied to a 1-by-1 Stone room grown
towards the point (2, 0). -/
theorem c4_witness :
    ((c4TightRoom.resize_to_fit 2 0).resize_shrink).base = c4TightRoom.base
    ∧ ((c4TightRoom.resize_to_fit 2 0).resize_shrink).w = c4TightRoom.w
    ∧ ((c4TightRoom.resize_to_fit 2 0).resize_shrink).x = c4TightRoom.x := by
  have h := c4_resize_roundtrip c4TightRoom 2 0
    (by decide) (by decide) (by decide) (by decide) (by decide)
    (by decide) (by decide) (by decide) (by decide)
  exact ⟨h.2.2.2.2.1, h.2.2.1, h.1⟩

set_option maxRecDepth 10000 in
/-- C3 counterexample: a run of the assembler (two templates, an explicit
draw sequence, ten placed rooms) whose final map has a pairwise tile
conflict: carving the first room's (2,0) door cell to Empty when the third
room connects there contradicts the second room, which had already matched
that cell as Wood. -/
theorem c3_counterexample :
    ¬ pairwiseConflictFree (GameMap.new_random c3Candidates c3Stream) := by
  have hlen : (GameMap.new_random c3Candidates c3Stream).rooms.length = 10 := by decide
  have h0 : (((GameMap.new_random c3Candidates c3Stream).rooms.getD 0
      Room.emptyRoom).get_at 2 0).1 = BaseTile.Empty := by decide
  have h1 : (((GameMap.new_random c3Candidates c3Stream).rooms.getD 1
      Room.emptyRoom).get_at 2 0).1 = BaseTile.Wood := by decide
  intro hpcf
  have h := hpcf 0 1 (by rw [hlen]; omega) (by rw [hlen]; omega) 2 0
  rw [h0, h1] at h
  have h2 := h (by decide) (by decide)
  exact absurd h2 (by decide)

theorem attempt_add_room_count (candidates : List Room) (st : AsmState) :
    ((attempt_add_room candidates st).rooms = st.rooms
      ∧ (attempt_add_room candidates st).room_count = st.room_count)
    ∨ ((attempt_add_room candidates st).rooms.length = st.rooms.length + 1
      ∧ (attempt_add_room candidates st).room_count = st.room_count + 1) := by
  simp only [attempt_add_room]
  split
  · left
    exact ⟨rfl, rfl⟩
  · split
    · left
      exact ⟨rfl, rfl⟩
    · split
      · left
        exact ⟨rfl, rfl⟩
      · split
        · left
          exact ⟨rfl, rfl⟩
        · right
          refine ⟨?_, rfl⟩
          simp [List.length_append, List.length_set]

theorem assemble_loop_count (candidates : List Room) (fuel : ℕ) (st : AsmState)
    (hlen : st.rooms.length = st.room_count)
    (hlow : 1 ≤ st.room_count) (hhigh : st.room_count ≤ 9) :
    1 ≤ (assemble_loop candidates fuel st).room_count
    ∧ (assemble_loop candidates fuel st).room_count ≤ 10
    ∧ (assemble_loop candidates fuel st).rooms.length
        = (assemble_loop candidates fuel st).room_count := by
  induction fuel generalizing st with
  | zero =>
    rw [assemble_loop]
    exact ⟨hlow, by omega, hlen⟩
  | succ n ih =>
    rw [assemble_loop]
    rcases attempt_add_room_count candidates st with ⟨he1, he2⟩ | ⟨he1, he2⟩
    · split
      · next hge =>
        rw [he2] at hge
        omega
      · exact ih _ (by rw [he1, he2]; exact hlen) (by omega) (by omega)
    · split
      · next hge =>
        refine ⟨by omega, by rw [he2]; omega, by rw [he1, he2, hlen]⟩
      · next hlt =>
        rw [he2] at hlt
        exact ih _ (by rw [he1, he2, hlen]) (by omega) (by omega)

/-- C3 amended: for every nonempty candidate pool and every draw sequence,
dungeon assembly terminates within its 1000-attempt budget (the loop is a
bounded iteration) and produces between 1 and 10 placed rooms.  The
zero-pairwise-conflict part of the claim is false: door carving after the
overlap check can turn an already-matched shared cell into Empty on one room
while a third room still holds the old solid tile there, as the
counterexample exhibits. -/
theorem c3_room_count_bounds (candidates : List Room) (rng : List ℕ)
    (hne : candidates ≠ []) :
    1 ≤ (GameMap.new_random candidates rng).rooms.length
    ∧ (GameMap.new_random candidates rng).rooms.length ≤ 10 := by
  have hproj : (GameMap.new_random candidates rng).rooms
      = (assemble_loop candidates 1000
          ⟨[candidates.getD (rngNext rng candidates.length).1 Room.emptyRoom], [], 1,
            (rngNext rng candidates.length).2⟩).rooms := rfl
  have h := assemble_loop_count candidates 1000
    ⟨[candidates.getD (rngNext rng candidates.length).1 Room.emptyRoom], [], 1,
      (rngNext rng candidates.length).2⟩
    (by simp) (by show (1:ℕ) ≤ 1; omega) (by show (1:ℕ) ≤ 9; omega)
  rw [hproj]
  omega

/-- C3 witness: the amended room-count theorem at the counterexample's
concrete pool and draw sequence. -/
theorem c3_witness :
    1 ≤ (GameMap.new_random c3Candidates c3Stream).rooms.length
    ∧ (GameMap.new_random c3Candidates c3Stream).rooms.length ≤ 10 :=
  c3_room_count_bounds c3Candidates c3Stream (by decide)
